import Mathlib

/-!
Verification of the metadata embedding engine of free-Image-metagen.

The TypeScript source operates on JavaScript strings (sequences of UTF-16
code units) and Uint8Array byte buffers.  We model a JS string as
`List Nat` (one element per UTF-16 code unit) and a byte buffer as
`List Nat` (one element per byte, each in 0..255 on real inputs).
`TextEncoder.encode` is modelled by `utf8OfUtf16`, `file.text()` by
`utf16OfUtf8`.  Uint8Array reads out of range yield `undefined` in JS,
which the arithmetic contexts of the source coerce to 0; we model such
reads with `List.getD _ _ 0`.  All functions are total, mirroring the
fact that the source never throws from these code paths.
-/

/-- UTF-16 code units of a Lean string literal (JS string model). -/
def u16 (s : String) : List Nat :=
  s.data.flatMap (fun c =>
    if c.toNat < 0x10000 then [c.toNat]
    else [0xD800 + (c.toNat - 0x10000) / 0x400, 0xDC00 + (c.toNat - 0x10000) % 0x400])

/-- ASCII lower-casing of one UTF-16 unit (models `toLowerCase` on the
ASCII range, the only range the source compares against). -/
def asciiLower (c : Nat) : Nat := if 65 ≤ c ∧ c ≤ 90 then c + 32 else c

/-- The JavaScript whitespace set matched by `\s` and trimmed by `trim()`. -/
def isJsWs (c : Nat) : Bool :=
  c = 9 || c = 10 || c = 11 || c = 12 || c = 13 || c = 32 || c = 0xA0 ||
  c = 0x1680 || (0x2000 ≤ c && c ≤ 0x200A) || c = 0x2028 || c = 0x2029 ||
  c = 0x202F || c = 0x205F || c = 0x3000 || c = 0xFEFF

/-- JS `String.prototype.trim`. -/
def jsTrim (s : List Nat) : List Nat :=
  ((s.dropWhile isJsWs).reverse.dropWhile isJsWs).reverse

/-- Truthiness of an optional JS string (`undefined` and `""` are falsy). -/
def jsTruthy : Option (List Nat) → Bool
  | none => false
  | some s => !s.isEmpty

/-- JS `a || b` on optional strings. -/
def orFalsy (a b : Option (List Nat)) : Option (List Nat) :=
  if jsTruthy a then a else b

/-- JS `a || ""` on an optional string. -/
def getStr : Option (List Nat) → List Nat
  | none => []
  | some s => s

/-- The loop of `jsSplit`, structurally recursive on a fuel argument
(each step consumes at least one unit, so `s.length` fuel suffices). -/
def jsSplitAux (isSep skip : Nat → Bool) : Nat → List Nat → List Nat → List (List Nat)
  | 0, _, cur => [cur.reverse]
  | _ + 1, [], cur => [cur.reverse]
  | fuel + 1, c :: rest, cur =>
    if isSep c then cur.reverse :: jsSplitAux isSep skip fuel (rest.dropWhile skip) []
    else jsSplitAux isSep skip fuel rest (c :: cur)

/-- JS `String.prototype.split` against a regex of the form
`sep` followed by `skip*`: at each unit satisfying `isSep` the current
element ends and the following run of `skip` units is consumed. -/
def jsSplit (isSep skip : Nat → Bool) (s : List Nat) : List (List Nat) :=
  jsSplitAux isSep skip s.length s []

/-- `s.split(/,\s*/)` from the source. -/
def splitCommaWs (s : List Nat) : List (List Nat) :=
  jsSplit (fun c => c = 44) isJsWs s

/-- `s.split(/[\s,]+/)` from the source. -/
def splitWsCommaRuns (s : List Nat) : List (List Nat) :=
  jsSplit (fun c => isJsWs c || c = 44) (fun c => isJsWs c || c = 44) s

/-- `s.split(".")` from the source (no run collapsing). -/
def splitDot (s : List Nat) : List (List Nat) :=
  jsSplit (fun c => c = 46) (fun _ => false) s

/-- `name.toLowerCase().split(".").pop() || ""` (file extension). -/
def extOf (name : List Nat) : List Nat :=
  (splitDot (name.map asciiLower)).getLastD []

/-- UTF-8 bytes of a replacement character U+FFFD. -/
def utf8Repl : List Nat := [0xEF, 0xBF, 0xBD]

/-- A UTF-8 continuation byte. -/
def utf8Cont (x : Nat) : Prop := 0x80 ≤ x ∧ x ≤ 0xBF

instance (x : Nat) : Decidable (utf8Cont x) := by unfold utf8Cont; infer_instance

/-- `TextEncoder.encode`: UTF-16 code units to UTF-8 bytes, pairing
surrogates and replacing lone surrogates.  Written with explicit
lookahead patterns so the recursion is structural (kernel-reducible). -/
def utf8OfUtf16 : List Nat → List Nat
  | [] => []
  | [c] =>
    if c < 0x80 then [c]
    else if c < 0x800 then [0xC0 + c / 64, 0x80 + c % 64]
    else if 0xD800 ≤ c ∧ c < 0xE000 then utf8Repl
    else [0xE0 + c / 4096, 0x80 + c / 64 % 64, 0x80 + c % 64]
  | c :: c2 :: rest =>
    if c < 0x80 then c :: utf8OfUtf16 (c2 :: rest)
    else if c < 0x800 then (0xC0 + c / 64) :: (0x80 + c % 64) :: utf8OfUtf16 (c2 :: rest)
    else if 0xD800 ≤ c ∧ c < 0xDC00 then
      if 0xDC00 ≤ c2 ∧ c2 < 0xE000 then
        let cp := 0x10000 + (c - 0xD800) * 0x400 + (c2 - 0xDC00)
        (0xF0 + cp / 262144) :: (0x80 + cp / 4096 % 64) :: (0x80 + cp / 64 % 64) ::
          (0x80 + cp % 64) :: utf8OfUtf16 rest
      else utf8Repl ++ utf8OfUtf16 (c2 :: rest)
    else if 0xDC00 ≤ c ∧ c < 0xE000 then utf8Repl ++ utf8OfUtf16 (c2 :: rest)
    else (0xE0 + c / 4096) :: (0x80 + c / 64 % 64) :: (0x80 + c % 64) ::
      utf8OfUtf16 (c2 :: rest)

/-- UTF-8 bytes to UTF-16 code units (`file.text()`), WHATWG-style with
replacement characters on malformed input; explicit lookahead patterns
keep the recursion structural. -/
def utf16OfUtf8 : List Nat → List Nat
  | [] => []
  | [b] => if b < 0x80 then [b] else [0xFFFD]
  | [b, b2] =>
    if b < 0x80 then b :: utf16OfUtf8 [b2]
    else if 0xC2 ≤ b ∧ b ≤ 0xDF then
      if utf8Cont b2 then [(b - 0xC0) * 64 + (b2 - 0x80)] else 0xFFFD :: utf16OfUtf8 [b2]
    else if 0xE0 ≤ b ∧ b ≤ 0xF4 then
      if utf8Cont b2 then [0xFFFD] else 0xFFFD :: utf16OfUtf8 [b2]
    else 0xFFFD :: utf16OfUtf8 [b2]
  | [b, b2, b3] =>
    if b < 0x80 then b :: utf16OfUtf8 [b2, b3]
    else if 0xC2 ≤ b ∧ b ≤ 0xDF then
      if utf8Cont b2 then ((b - 0xC0) * 64 + (b2 - 0x80)) :: utf16OfUtf8 [b3]
      else 0xFFFD :: utf16OfUtf8 [b2, b3]
    else if 0xE0 ≤ b ∧ b ≤ 0xEF then
      if utf8Cont b2 ∧ utf8Cont b3 ∧ ¬(b = 0xE0 ∧ b2 < 0xA0) ∧ ¬(b = 0xED ∧ 0x9F < b2) then
        [(b - 0xE0) * 4096 + (b2 - 0x80) * 64 + (b3 - 0x80)]
      else 0xFFFD :: utf16OfUtf8 [b2, b3]
    else if 0xF0 ≤ b ∧ b ≤ 0xF4 then
      if utf8Cont b2 ∧ utf8Cont b3 then [0xFFFD] else 0xFFFD :: utf16OfUtf8 [b2, b3]
    else 0xFFFD :: utf16OfUtf8 [b2, b3]
  | b :: b2 :: b3 :: b4 :: rest =>
    if b < 0x80 then b :: utf16OfUtf8 (b2 :: b3 :: b4 :: rest)
    else if 0xC2 ≤ b ∧ b ≤ 0xDF then
      if utf8Cont b2 then ((b - 0xC0) * 64 + (b2 - 0x80)) :: utf16OfUtf8 (b3 :: b4 :: rest)
      else 0xFFFD :: utf16OfUtf8 (b2 :: b3 :: b4 :: rest)
    else if 0xE0 ≤ b ∧ b ≤ 0xEF then
      if utf8Cont b2 ∧ utf8Cont b3 ∧ ¬(b = 0xE0 ∧ b2 < 0xA0) ∧ ¬(b = 0xED ∧ 0x9F < b2) then
        ((b - 0xE0) * 4096 + (b2 - 0x80) * 64 + (b3 - 0x80)) :: utf16OfUtf8 (b4 :: rest)
      else 0xFFFD :: utf16OfUtf8 (b2 :: b3 :: b4 :: rest)
    else if 0xF0 ≤ b ∧ b ≤ 0xF4 then
      if utf8Cont b2 ∧ utf8Cont b3 ∧ utf8Cont b4 ∧ ¬(b = 0xF0 ∧ b2 < 0x90) ∧
         ¬(b = 0xF4 ∧ 0x8F < b2) then
        let cp := (b - 0xF0) * 262144 + (b2 - 0x80) * 4096 + (b3 - 0x80) * 64 + (b4 - 0x80)
        (0xD800 + (cp - 0x10000) / 0x400) :: (0xDC00 + (cp - 0x10000) % 0x400) ::
          utf16OfUtf8 rest
      else 0xFFFD :: utf16OfUtf8 (b2 :: b3 :: b4 :: rest)
    else 0xFFFD :: utf16OfUtf8 (b2 :: b3 :: b4 :: rest)

/-- The metadata record handed to every embedder
(`EmbedMetadataInput` in `jpegMetadata.ts`). -/
structure EmbedMetadataInput where
  title : Option (List Nat) := none
  description : Option (List Nat) := none
  altText : Option (List Nat) := none
  keywords : Option (List Nat) := none
  category : Option (List Nat) := none

/-- Big-endian 4-byte encoding, as produced by `(v >>> 24) & 0xff` etc. -/
def be32Bytes (n : Nat) : List Nat :=
  let w := n % 4294967296
  [w / 16777216 % 256, w / 65536 % 256, w / 256 % 256, w % 256]

/-- `((d[0] << 24) | (d[1] << 16) | (d[2] << 8) | d[3]) >>> 0` on a byte list. -/
def readBE32 (l : List Nat) : Nat :=
  l.getD 0 0 * 16777216 + l.getD 1 0 * 65536 + l.getD 2 0 * 256 + l.getD 3 0

/-- `writeU32LE` from `webpMetadata.ts` (bytes of `v` mod 2^32, little-endian). -/
def writeU32LE (v : Nat) : List Nat :=
  let w := v % 4294967296
  [w % 256, w / 256 % 256, w / 65536 % 256, w / 16777216 % 256]

/-- `readU32LE` from `webpMetadata.ts`. -/
def readU32LE (l : List Nat) : Nat :=
  l.getD 0 0 + l.getD 1 0 * 256 + l.getD 2 0 * 65536 + l.getD 3 0 * 16777216

/-- The four-way XML escape shared (as identical local `escapeXml` /
`esc` definitions) by the PNG, WebP, GIF and SVG sources
(`&`, `<`, `>`, `"`; the chained `replace` calls act per character
because no replacement string contains a later pattern). -/
def escXml4 (s : List Nat) : List Nat :=
  s.flatMap (fun c =>
    if c = 38 then u16 "&amp;"
    else if c = 60 then u16 "&lt;"
    else if c = 62 then u16 "&gt;"
    else if c = 34 then u16 "&quot;"
    else [c])

/-- The `langAlt` helper shared by the PNG, WebP and GIF XMP builders. -/
def langAlt4 (v : List Nat) : List Nat :=
  u16 "<rdf:Alt><rdf:li xml:lang=\"x-default\">" ++ escXml4 v ++ u16 "</rdf:li></rdf:Alt>"

namespace Png

/-- One update step of the CRC-32 inner loop:
`c = c & 1 ? 0xedb88320 ^ (c >>> 1) : c >>> 1`. -/
def crcStep (c : Nat) : Nat :=
  if c % 2 = 1 then Nat.xor 0xEDB88320 (c / 2) else c / 2

/-- Entry `n` of the CRC-32 lookup table (IEEE polynomial).  The source
memoizes these 256 values in `crcTable`; indexing that table at `n`
equals applying the 8-fold step to `n`. -/
def crcTable (n : Nat) : Nat :=
  crcStep (crcStep (crcStep (crcStep (crcStep (crcStep (crcStep (crcStep n)))))))

/-- The loop of `crc32`: `crc = crcTable[(crc ^ data[i]) & 0xff] ^ (crc >>> 8)`. -/
def crc32Aux : List Nat → Nat → Nat
  | [], crc => crc
  | b :: rest, crc => crc32Aux rest (Nat.xor (crcTable (Nat.xor crc b % 256)) (crc / 256))

/-- `crc32` from `pngMetadata.ts`. -/
def crc32 (data : List Nat) : Nat := Nat.xor (crc32Aux data 0xFFFFFFFF) 0xFFFFFFFF

/-- `buildChunk`: length + type + data + CRC over type+data. -/
def buildChunk (ty : String) (data : List Nat) : List Nat :=
  let typeBytes := utf8OfUtf16 (u16 ty)
  be32Bytes data.length ++ typeBytes ++ data ++ be32Bytes (crc32 (typeBytes ++ data))

/-- `createITXtChunk`: keyword NUL, compression flag 0, compression
method 0, empty language tag NUL, empty translated keyword NUL, text. -/
def createITXtChunk (keyword text : List Nat) : List Nat :=
  buildChunk "iTXt" (utf8OfUtf16 keyword ++ [0, 0, 0, 0, 0] ++ utf8OfUtf16 text)

/-- The `parts` list of the PNG `buildXmpPacket`. -/
def xmpParts (meta : EmbedMetadataInput) : List (List Nat) :=
  let keywords :=
    if jsTruthy meta.keywords then
      (splitCommaWs (getStr meta.keywords)).filter (fun k => !k.isEmpty)
    else []
  (if jsTruthy meta.title then
     [u16 "<dc:title>" ++ langAlt4 (getStr meta.title) ++ u16 "</dc:title>"]
   else []) ++
  (if jsTruthy meta.description || jsTruthy meta.title then
     [u16 "<dc:description>" ++ langAlt4 (getStr (orFalsy meta.description meta.title)) ++
       u16 "</dc:description>"]
   else []) ++
  (if !keywords.isEmpty then
     [u16 "<dc:subject><rdf:Bag>" ++
       (keywords.map (fun k => u16 "<rdf:li>" ++ escXml4 k ++ u16 "</rdf:li>")).flatten ++
       u16 "</rdf:Bag></dc:subject>"]
   else []) ++
  (if jsTruthy meta.title then
     [u16 "<photoshop:Headline>" ++ escXml4 (getStr meta.title) ++ u16 "</photoshop:Headline>"]
   else [])

/-- `buildXmpPacket` from `pngMetadata.ts` (template literal around the
joined parts). -/
def buildXmpPacket (meta : EmbedMetadataInput) : List Nat :=
  u16 "<?xpacket begin=\"\uFEFF\" id=\"W5M0MpCehiHzreSzNTczkc9d\"?>\n<x:xmpmeta xmlns:x=\"adobe:ns:meta/\">\n <rdf:RDF xmlns:rdf=\"http://www.w3.org/1999/02/22-rdf-syntax-ns#\">\n  <rdf:Description rdf:about=\"\"\n    xmlns:dc=\"http://purl.org/dc/elements/1.1/\"\n    xmlns:photoshop=\"http://ns.adobe.com/photoshop/1.0/\">\n    " ++
  List.intercalate (u16 "\n    ") (xmpParts meta) ++
  u16 "\n  </rdf:Description>\n </rdf:RDF>\n</x:xmpmeta>\n<?xpacket end=\"w\"?>"

/-- The fixed 8-byte PNG signature. -/
def pngSig : List Nat := [137, 80, 78, 71, 13, 10, 26, 10]

/-- The metadata chunks built by `embedPngMetadata`; the XMP `iTXt`
chunk is appended unconditionally. -/
def pngMetaChunks (metadata : EmbedMetadataInput) : List (List Nat) :=
  (if jsTruthy metadata.title then
     [createITXtChunk (u16 "Title") (getStr metadata.title)] else []) ++
  (if jsTruthy metadata.description then
     [createITXtChunk (u16 "Description") (getStr metadata.description)] else []) ++
  (if jsTruthy metadata.keywords then
     [createITXtChunk (u16 "Comment") (getStr metadata.keywords)] else []) ++
  [createITXtChunk (u16 "XML:com.adobe.xmp") (buildXmpPacket metadata)]

def tEXtBytes : List Nat := [116, 69, 88, 116]
def iTXtBytes : List Nat := [105, 84, 88, 116]
def zTXtBytes : List Nat := [122, 84, 88, 116]

/-- `stripExistingTextChunks`: scan chunk by chunk, dropping `tEXt`,
`iTXt` and `zTXt`; the loop exits (returning only the chunks kept so
far) when fewer than 8 bytes remain or a declared chunk length runs
past the end of the buffer. -/
def stripAux : Nat → List Nat → List Nat
  | 0, _ => []
  | fuel + 1, data =>
    if 8 ≤ data.length then
      let len := readBE32 data
      let chunkTotal := 4 + 4 + len + 4
      if chunkTotal ≤ data.length then
        (if (data.drop 4).take 4 = tEXtBytes ∨ (data.drop 4).take 4 = iTXtBytes ∨
            (data.drop 4).take 4 = zTXtBytes then []
         else data.take chunkTotal) ++ stripAux fuel (data.drop chunkTotal)
      else []
    else []

def stripExistingTextChunks (data : List Nat) : List Nat := stripAux data.length data

/-- `embedPngMetadata` (byte-level: the `File` read is the byte list). -/
def embedPngMetadata (data : List Nat) (metadata : EmbedMetadataInput) :
    Option (List Nat) :=
  if data.take 8 = pngSig then
    let chunks := pngMetaChunks metadata
    if chunks.isEmpty then none
    else
      let ihdrLen := readBE32 (data.drop 8)
      let insertPos := 8 + 4 + 4 + ihdrLen + 4
      some (data.take insertPos ++ chunks.flatten ++
        stripExistingTextChunks (data.drop insertPos))
  else none

end Png

namespace Webp

/-- The `parts` list of the WebP `buildXmpPacket`. -/
def xmpParts (meta : EmbedMetadataInput) : List (List Nat) :=
  let keywords :=
    if jsTruthy meta.keywords then
      (splitCommaWs (getStr meta.keywords)).filter (fun k => !k.isEmpty)
    else []
  (if jsTruthy meta.title then
     [u16 "<dc:title>" ++ langAlt4 (getStr meta.title) ++ u16 "</dc:title>"]
   else []) ++
  (if jsTruthy meta.description || jsTruthy meta.title then
     [u16 "<dc:description>" ++ langAlt4 (getStr (orFalsy meta.description meta.title)) ++
       u16 "</dc:description>"]
   else []) ++
  (if !keywords.isEmpty then
     [u16 "<dc:subject><rdf:Bag>" ++
       (keywords.map (fun k => u16 "<rdf:li>" ++ escXml4 k ++ u16 "</rdf:li>")).flatten ++
       u16 "</rdf:Bag></dc:subject>"]
   else []) ++
  (if jsTruthy meta.title then
     [u16 "<photoshop:Headline>" ++ escXml4 (getStr meta.title) ++ u16 "</photoshop:Headline>"]
   else []) ++
  (if jsTruthy meta.altText then
     [u16 "<Iptc4xmpExt:AltTextAccessibility>" ++ langAlt4 (getStr meta.altText) ++
       u16 "</Iptc4xmpExt:AltTextAccessibility>"]
   else [])

/-- `buildXmpPacket` from `webpMetadata.ts`. -/
def buildXmpPacket (meta : EmbedMetadataInput) : List Nat :=
  u16 "<?xpacket begin=\"\uFEFF\" id=\"W5M0MpCehiHzreSzNTczkc9d\"?>\n<x:xmpmeta xmlns:x=\"adobe:ns:meta/\">\n <rdf:RDF xmlns:rdf=\"http://www.w3.org/1999/02/22-rdf-syntax-ns#\">\n  <rdf:Description rdf:about=\"\"\n    xmlns:dc=\"http://purl.org/dc/elements/1.1/\"\n    xmlns:photoshop=\"http://ns.adobe.com/photoshop/1.0/\"\n    xmlns:Iptc4xmpExt=\"http://iptc.org/std/Iptc4xmpExt/2008-02-29/\">\n    " ++
  List.intercalate (u16 "\n    ") (xmpParts meta) ++
  u16 "\n  </rdf:Description>\n </rdf:RDF>\n</x:xmpmeta>\n<?xpacket end=\"w\"?>"

def riffBytes : List Nat := [82, 73, 70, 70]
def webpBytes : List Nat := [87, 69, 66, 80]
def xmpFourCC : List Nat := [88, 77, 80, 32]

/-- The freshly built `"XMP "` chunk: FourCC, LE size, data, pad byte
when the data length is odd. -/
def xmpChunkBytes (metadata : EmbedMetadataInput) : List Nat :=
  let xmpBytes := utf8OfUtf16 (buildXmpPacket metadata)
  xmpFourCC ++ writeU32LE xmpBytes.length ++ xmpBytes ++
    (if xmpBytes.length % 2 = 1 then [0] else [])

/-- The chunk-collection loop of `embedWebpMetadata`: scan chunks from
offset 12, drop any existing `"XMP "` chunk, keep the rest; the loop
exits when fewer than 8 bytes remain or `pos + totalLen > data.length + 1`
(the source allows a one-byte overshoot, clamping the final slice). -/
def scanChunksAux : Nat → List Nat → List (List Nat)
  | 0, _ => []
  | fuel + 1, data =>
    if 8 ≤ data.length then
      let chunkLen := readU32LE (data.drop 4)
      let totalLen := 8 + chunkLen + (if chunkLen % 2 = 1 then 1 else 0)
      if totalLen ≤ data.length + 1 then
        (if data.take 4 = xmpFourCC then [] else [data.take totalLen]) ++
          scanChunksAux fuel (data.drop totalLen)
      else []
    else []

def scanChunks (data : List Nat) : List (List Nat) := scanChunksAux data.length data

/-- `embedWebpMetadata` (byte-level). -/
def embedWebpMetadata (data : List Nat) (metadata : EmbedMetadataInput) :
    Option (List Nat) :=
  if data.length < 12 then none
  else if data.take 4 = riffBytes ∧ (data.drop 8).take 4 = webpBytes then
    let chunks := scanChunks (data.drop 12) ++ [xmpChunkBytes metadata]
    let bodyLen := (chunks.map List.length).sum
    some (riffBytes ++ writeU32LE (4 + bodyLen) ++ webpBytes ++ chunks.flatten)
  else none

end Webp

namespace Gif

/-- The `parts` list of the GIF `buildXmpPacket`. -/
def xmpParts (meta : EmbedMetadataInput) : List (List Nat) :=
  let keywords :=
    if jsTruthy meta.keywords then
      (splitCommaWs (getStr meta.keywords)).filter (fun k => !k.isEmpty)
    else []
  (if jsTruthy meta.title then
     [u16 "<dc:title>" ++ langAlt4 (getStr meta.title) ++ u16 "</dc:title>"]
   else []) ++
  (if jsTruthy meta.description || jsTruthy meta.title then
     [u16 "<dc:description>" ++ langAlt4 (getStr (orFalsy meta.description meta.title)) ++
       u16 "</dc:description>"]
   else []) ++
  (if !keywords.isEmpty then
     [u16 "<dc:subject><rdf:Bag>" ++
       (keywords.map (fun k => u16 "<rdf:li>" ++ escXml4 k ++ u16 "</rdf:li>")).flatten ++
       u16 "</rdf:Bag></dc:subject>"]
   else [])

/-- `buildXmpPacket` from `gifMetadata.ts`. -/
def buildXmpPacket (meta : EmbedMetadataInput) : List Nat :=
  u16 "<?xpacket begin=\"\uFEFF\" id=\"W5M0MpCehiHzreSzNTczkc9d\"?>\n<x:xmpmeta xmlns:x=\"adobe:ns:meta/\">\n <rdf:RDF xmlns:rdf=\"http://www.w3.org/1999/02/22-rdf-syntax-ns#\">\n  <rdf:Description rdf:about=\"\"\n    xmlns:dc=\"http://purl.org/dc/elements/1.1/\">\n    " ++
  List.intercalate (u16 "\n    ") (xmpParts meta) ++
  u16 "\n  </rdf:Description>\n </rdf:RDF>\n</x:xmpmeta>\n<?xpacket end=\"w\"?>"

/-- Split comment bytes into GIF sub-blocks of at most 255 bytes, each
prefixed with a 1-byte length. -/
def gifSubBlocksAux : Nat → List Nat → List (List Nat)
  | 0, _ => []
  | fuel + 1, bs =>
    if bs.isEmpty then []
    else (min bs.length 255 :: bs.take 255) :: gifSubBlocksAux fuel (bs.drop 255)

def gifSubBlocks (bs : List Nat) : List (List Nat) := gifSubBlocksAux bs.length bs

/-- `createCommentExtension`: `0x21 0xFE`, sub-blocks, terminator. -/
def createCommentExtension (comment : List Nat) : List Nat :=
  [0x21, 0xFE] ++ (gifSubBlocks (utf8OfUtf16 comment)).flatten ++ [0]

/-- `createXmpApplicationExtension`: `0x21 0xFF 0x0B "XMP DataXMP"`,
raw XMP bytes, then the 257-byte magic trailer plus block terminator. -/
def createXmpApplicationExtension (xmpStr : List Nat) : List Nat :=
  [0x21, 0xFF, 0x0B] ++ utf8OfUtf16 (u16 "XMP DataXMP") ++ utf8OfUtf16 xmpStr ++
    (1 :: (List.range 256).map (fun i => 255 - i) ++ [0])

/-- The `commentParts` list of `embedGifMetadata`. -/
def commentParts (metadata : EmbedMetadataInput) : List (List Nat) :=
  (if jsTruthy metadata.title then [u16 "Title: " ++ getStr metadata.title] else []) ++
  (if jsTruthy metadata.description then
     [u16 "Description: " ++ getStr metadata.description] else []) ++
  (if jsTruthy metadata.keywords then [u16 "Keywords: " ++ getStr metadata.keywords] else [])

/-- `embedGifMetadata` (byte-level). -/
def embedGifMetadata (data : List Nat) (metadata : EmbedMetadataInput) :
    Option (List Nat) :=
  if data.take 6 = u16 "GIF87a" ∨ data.take 6 = u16 "GIF89a" then
    let parts := commentParts metadata
    let commentExt :=
      if parts.isEmpty then []
      else createCommentExtension (List.intercalate (u16 " | ") parts)
    let xmpExt := createXmpApplicationExtension (buildXmpPacket metadata)
    let result := ((data.set 3 0x38).set 4 0x39).set 5 0x61
    let gctByte := data.getD 10 0
    let insertPos := 13 + (if gctByte.testBit 7 then 3 * 2 ^ (gctByte % 8 + 1) else 0)
    some (result.take insertPos ++ commentExt ++ xmpExt ++ result.drop insertPos)
  else none

end Gif

namespace Jpeg

/-- The five-way XML escape of `jpegMetadata.ts` (`&`, `<`, `>`, `"`,
and the single-quote character, unit 39, which becomes `&apos;`). -/
def escapeXml (s : List Nat) : List Nat :=
  s.flatMap (fun c =>
    if c = 38 then u16 "&amp;"
    else if c = 60 then u16 "&lt;"
    else if c = 62 then u16 "&gt;"
    else if c = 34 then u16 "&quot;"
    else if c = 39 then [38, 97, 112, 111, 115, 59]
    else [c])

/-- `buildLangAlt` from `jpegMetadata.ts`. -/
def buildLangAlt (v : List Nat) : List Nat :=
  u16 "<rdf:Alt><rdf:li xml:lang=\"x-default\">" ++ escapeXml v ++ u16 "</rdf:li></rdf:Alt>"

/-- `createIPTCDataset`: marker `0x1C`, record 2, tag, 2-byte big-endian
length, encoded value bytes. -/
def createIPTCDataset (tag : Nat) (value : List Nat) : List Nat :=
  let valueBytes := utf8OfUtf16 value
  [0x1C, 0x02, tag % 256, valueBytes.length / 256 % 256, valueBytes.length % 256] ++
    valueBytes

/-- The argument record of `createIPTCBlock` (keywords already split). -/
structure IPTCMeta where
  title : Option (List Nat) := none
  description : Option (List Nat) := none
  keywords : List (List Nat) := []
  category : Option (List Nat) := none

/-- The `(tag, value)` pairs pushed by `createIPTCBlock`, in push order.
Each value is truncated with `slice(0, n)`, which counts UTF-16 code
units. -/
def iptcDatasets (m : IPTCMeta) : List (Nat × List Nat) :=
  (if jsTruthy m.title then [(5, (getStr m.title).take 64)] else []) ++
  (if jsTruthy m.title then [(105, (getStr m.title).take 256)] else []) ++
  (if jsTruthy m.description then [(120, (getStr m.description).take 2000)] else []) ++
  (if jsTruthy m.category then [(15, (getStr m.category).take 3)] else []) ++
  ((m.keywords.filter (fun k => !(jsTrim k).isEmpty)).map
    (fun k => (25, (jsTrim k).take 64)))

/-- `createIPTCBlock`: concatenation of the datasets. -/
def createIPTCBlock (m : IPTCMeta) : List Nat :=
  (iptcDatasets m).flatMap (fun td => createIPTCDataset td.1 td.2)

/-- `createPhotoshopIPTCResource`: `"8BIM"`, resource id `0x0404`, empty
pascal string plus pad, 4-byte big-endian (unpadded) length, data padded
to even length. -/
def createPhotoshopIPTCResource (iptcData : List Nat) : List Nat :=
  utf8OfUtf16 (u16 "8BIM") ++ [0x04, 0x04, 0, 0] ++ be32Bytes iptcData.length ++
    (iptcData ++ if iptcData.length % 2 = 1 then [0] else [])

/-- `encodeUTF16LE`: two bytes per UTF-16 unit plus a 2-byte NUL. -/
def encodeUTF16LE (s : List Nat) : List Nat :=
  s.flatMap (fun c => [c % 256, c / 256 % 256]) ++ [0, 0]

/-- `createIFDEntry`: tag, type, count, value/offset, all little-endian. -/
def createIFDEntry (tag ty count vo : Nat) : List Nat :=
  [tag % 256, tag / 256 % 256, ty % 256, ty / 256 % 256,
   count % 256, count / 256 % 256, count / 65536 % 256, count / 16777216 % 256,
   vo % 256, vo / 256 % 256, vo / 65536 % 256, vo / 16777216 % 256]

/-- The argument record of `createEXIFSegment`. -/
structure ExifMeta where
  title : Option (List Nat) := none
  description : Option (List Nat) := none
  keywords : List (List Nat) := []

/-- The candidate IFD entries `(tag, type, data)` in push order. -/
def exifEntries (m : ExifMeta) : List (Nat × Nat × List Nat) :=
  (if jsTruthy m.description || jsTruthy m.title then
     [(0x010E, 2, utf8OfUtf16 (getStr (orFalsy m.description m.title) ++ [0]))]
   else []) ++
  (if jsTruthy m.title then [(0x9C9B, 1, encodeUTF16LE (getStr m.title))] else []) ++
  (if jsTruthy m.description || jsTruthy m.title then
     [(0x9C9C, 1, encodeUTF16LE (getStr (orFalsy m.description m.title)))]
   else []) ++
  (if !m.keywords.isEmpty then
     [(0x9C9E, 1, encodeUTF16LE (List.intercalate (u16 "; ") m.keywords))]
   else []) ++
  (if jsTruthy m.title then [(0x9C9F, 1, encodeUTF16LE (getStr m.title))] else [])

/-- `entries.sort((a, b) => a.tag - b.tag)`. -/
def exifSorted (m : ExifMeta) : List (Nat × Nat × List Nat) :=
  (exifEntries m).mergeSort (fun a b => a.1 ≤ b.1)

/-- A value of at most 4 bytes packed into the value/offset field
(`paddedValue[0] | paddedValue[1] << 8 | ...`, zero-extended). -/
def inlineVO (d : List Nat) : Nat :=
  d.getD 0 0 + d.getD 1 0 * 256 + d.getD 2 0 * 65536 + d.getD 3 0 * 16777216

/-- The first pass of `createEXIFSegment`: for each sorted entry, the
12 serialized entry bytes and its (possibly empty) data-area bytes,
threading the running data offset and padding data to even length. -/
def exifLayout : List (Nat × Nat × List Nat) → Nat → List (List Nat × List Nat)
  | [], _ => []
  | e :: rest, off =>
    let d := e.2.2
    if d.length ≤ 4 then
      (createIFDEntry e.1 e.2.1 d.length (inlineVO d), []) :: exifLayout rest off
    else
      (createIFDEntry e.1 e.2.1 d.length off,
        d ++ if d.length % 2 = 1 then [0] else []) ::
        exifLayout rest (off + d.length + d.length % 2)

/-- `"Exif\0\0"` as bytes. -/
def exifIdent : List Nat := [69, 120, 105, 102, 0, 0]

/-- The TIFF block of `createEXIFSegment`: little-endian header, IFD0
entry count, entries, zero next-IFD pointer, then the data area. -/
def exifTiffData (m : ExifMeta) : List Nat :=
  let sorted := exifSorted m
  let numEntries := sorted.length
  let ifdSize := 2 + numEntries * 12 + 4
  let layout := exifLayout sorted (8 + ifdSize)
  [0x49, 0x49, 0x2A, 0x00, 0x08, 0x00, 0x00, 0x00] ++
    [numEntries % 256, numEntries / 256 % 256] ++
    (layout.map Prod.fst).flatten ++ [0, 0, 0, 0] ++ (layout.map Prod.snd).flatten

/-- `createEXIFSegment`: empty when no field is present, otherwise an
APP1 marker, a 2-byte length field (no 16-bit overflow check), the Exif
identifier and the TIFF block. -/
def createEXIFSegment (m : ExifMeta) : List Nat :=
  if !jsTruthy m.title && !jsTruthy m.description && m.keywords.isEmpty then []
  else
    let tiffData := exifTiffData m
    let segmentLength := 2 + exifIdent.length + tiffData.length
    [0xFF, 0xE1, segmentLength / 256 % 256, segmentLength % 256] ++ exifIdent ++ tiffData

/-- The argument record of `createXMPSegment`. -/
structure XmpMeta where
  title : Option (List Nat) := none
  description : Option (List Nat) := none
  keywords : List (List Nat) := []
  altText : Option (List Nat) := none
  label : Option (List Nat) := none

/-- The XMP packet string built by `createXMPSegment` (fields trimmed,
effective values computed with `||` fallbacks). -/
def xmpPacketOf (m : XmpMeta) : List Nat :=
  let title := m.title.map jsTrim
  let keywords := (m.keywords.map jsTrim).filter (fun k => !k.isEmpty)
  let description := m.description.map jsTrim
  let label := m.label.map jsTrim
  let altText := m.altText.map jsTrim
  let effectiveDescription := getStr (orFalsy title description)
  let effectiveLabel := getStr (orFalsy label title)
  let effectiveAltText := getStr (orFalsy altText title)
  let dcTitle :=
    if jsTruthy title then
      u16 "<dc:title>" ++ buildLangAlt (getStr title) ++ u16 "</dc:title>" else []
  let dcDesc :=
    if !effectiveDescription.isEmpty then
      u16 "<dc:description>" ++ buildLangAlt effectiveDescription ++ u16 "</dc:description>"
    else []
  let dcSubject :=
    if !keywords.isEmpty then
      u16 "<dc:subject><rdf:Bag>" ++
        (keywords.map (fun k => u16 "<rdf:li>" ++ escapeXml k ++ u16 "</rdf:li>")).flatten ++
        u16 "</rdf:Bag></dc:subject>"
    else []
  let psHeadline :=
    if jsTruthy title then
      u16 "<photoshop:Headline>" ++ escapeXml (getStr title) ++ u16 "</photoshop:Headline>"
    else []
  let xmpLabel :=
    if !effectiveLabel.isEmpty then
      u16 "<xmp:Label>" ++ escapeXml effectiveLabel ++ u16 "</xmp:Label>" else []
  let accessibilityAlt :=
    if !effectiveAltText.isEmpty then
      u16 "<Iptc4xmpExt:AltTextAccessibility>" ++ buildLangAlt effectiveAltText ++
        u16 "</Iptc4xmpExt:AltTextAccessibility>"
    else []
  u16 "<?xpacket begin=\"\uFEFF\" id=\"W5M0MpCehiHzreSzNTczkc9d\"?>\n<x:xmpmeta xmlns:x=\"adobe:ns:meta/\">\n <rdf:RDF xmlns:rdf=\"http://www.w3.org/1999/02/22-rdf-syntax-ns#\">\n  <rdf:Description rdf:about=\"\"\n    xmlns:dc=\"http://purl.org/dc/elements/1.1/\"\n    xmlns:xmp=\"http://ns.adobe.com/xap/1.0/\"\n    xmlns:photoshop=\"http://ns.adobe.com/photoshop/1.0/\"\n    xmlns:Iptc4xmpExt=\"http://iptc.org/std/Iptc4xmpExt/2008-02-29/\">\n    " ++
  dcTitle ++ u16 "\n    " ++ dcDesc ++ u16 "\n    " ++ dcSubject ++ u16 "\n    " ++
  psHeadline ++ u16 "\n    " ++ xmpLabel ++ u16 "\n    " ++ accessibilityAlt ++
  u16 "\n  </rdf:Description>\n </rdf:RDF>\n</x:xmpmeta>\n<?xpacket end=\"w\"?>"

/-- Whether all (trimmed) XMP inputs are absent, the early-out guard of
`createXMPSegment`. -/
def xmpAllEmpty (m : XmpMeta) : Bool :=
  !jsTruthy (m.title.map jsTrim) && !jsTruthy (m.description.map jsTrim) &&
  ((m.keywords.map jsTrim).filter (fun k => !k.isEmpty)).isEmpty &&
  !jsTruthy (m.altText.map jsTrim) && !jsTruthy (m.label.map jsTrim)

/-- The XMP APP1 identifier `"http://ns.adobe.com/xap/1.0/\0"`. -/
def xapIdent : List Nat := utf8OfUtf16 (u16 "http://ns.adobe.com/xap/1.0/") ++ [0]

/-- `createXMPSegment`: empty when no field is present or the segment
would exceed the 16-bit length capacity (`segmentLength > 0xffff`),
otherwise a well-formed APP1 segment. -/
def createXMPSegment (m : XmpMeta) : List Nat :=
  if xmpAllEmpty m then []
  else
    let xmpBytes := utf8OfUtf16 (xmpPacketOf m)
    let segmentLength := 2 + xapIdent.length + xmpBytes.length
    if segmentLength > 0xFFFF then []
    else [0xFF, 0xE1, segmentLength / 256 % 256, segmentLength % 256] ++ xapIdent ++ xmpBytes

/-- `"Photoshop 3.0\0"` as bytes. -/
def photoshopHeader : List Nat := utf8OfUtf16 (u16 "Photoshop 3.0") ++ [0]

/-- The APP13 segment built inside `embedMetadataInJPEG`. -/
def app13SegmentOf (iptcBlock : List Nat) : List Nat :=
  let content := photoshopHeader ++ iptcBlock
  let segLen := content.length + 2
  [0xFF, 0xED, segLen / 256 % 256, segLen % 256] ++ content

/-- The scan loop of `embedMetadataInJPEG`: starting after SOI, skip
APP1 (`0xE1`), APP13 (`0xED`) and APP0 (`0xE0`) segments; stop at any
other marker, at a non-`0xFF` byte, or near the end of the buffer. -/
def jpegInsertPosAux (data : List Nat) : Nat → Nat → Nat
  | 0, pos => pos
  | fuel + 1, pos =>
    if pos < data.length - 1 then
      if data.getD pos 0 ≠ 0xFF then pos
      else
        let marker := data.getD (pos + 1) 0
        if marker = 0xE1 ∨ marker = 0xED ∨ marker = 0xE0 then
          jpegInsertPosAux data fuel
            (pos + 2 + (data.getD (pos + 2) 0 * 256 + data.getD (pos + 3) 0))
        else pos
    else pos

def jpegInsertPos (data : List Nat) (pos : Nat) : Nat :=
  jpegInsertPosAux data data.length pos

/-- `embedMetadataInJPEG`: SOI, new EXIF APP1, new XMP APP1, new APP13,
then the original bytes from the insert position onward.  Bytes between
SOI and the insert position (the skipped APP0/APP1/APP13 run) are not
copied. -/
def embedMetadataInJPEG (jpegData iptcBlock exifSegment xmpSegment : List Nat) : List Nat :=
  [0xFF, 0xD8] ++ exifSegment ++ xmpSegment ++ app13SegmentOf iptcBlock ++
    jpegData.drop (jpegInsertPos jpegData 2)

/-- The keyword list parsed from the raw comma-separated string
(`split(/,\s*/).filter((k) => k.trim())`). -/
def parsedKeywords (metadata : EmbedMetadataInput) : List (List Nat) :=
  if jsTruthy metadata.keywords then
    (splitCommaWs (getStr metadata.keywords)).filter (fun k => !(jsTrim k).isEmpty)
  else []

/-- The APP13/IPTC payload built by `embedJpegMetadata`: trimmed fields,
first word of the category, parsed keywords. -/
def builtPhotoshopBlock (metadata : EmbedMetadataInput) : List Nat :=
  let title := metadata.title.map jsTrim
  let description := metadata.description.map jsTrim
  let category := metadata.category.map jsTrim
  let firstWordCategory :=
    if jsTruthy category then some ((splitWsCommaRuns (getStr category)).getD 0 [])
    else none
  createPhotoshopIPTCResource (createIPTCBlock
    { title := title, description := description, keywords := parsedKeywords metadata,
      category := firstWordCategory })

/-- The EXIF APP1 segment built by `embedJpegMetadata`
(description falls back to the title). -/
def builtExif (metadata : EmbedMetadataInput) : List Nat :=
  let title := metadata.title.map jsTrim
  let description := metadata.description.map jsTrim
  createEXIFSegment
    { title := title, description := orFalsy description title,
      keywords := parsedKeywords metadata }

/-- The XMP APP1 segment built by `embedJpegMetadata`. -/
def builtXmp (metadata : EmbedMetadataInput) : List Nat :=
  let title := metadata.title.map jsTrim
  let description := metadata.description.map jsTrim
  let altText := orFalsy (metadata.altText.map jsTrim) (orFalsy description title)
  createXMPSegment
    { title := title, description := orFalsy description title,
      keywords := parsedKeywords metadata, altText := altText, label := title }

/-- `embedJpegMetadata` (byte-level). -/
def embedJpegMetadata (data : List Nat) (metadata : EmbedMetadataInput) :
    Option (List Nat) :=
  if data.getD 0 0 = 0xFF ∧ data.getD 1 0 = 0xD8 then
    some (embedMetadataInJPEG data (builtPhotoshopBlock metadata) (builtExif metadata)
      (builtXmp metadata))
  else none

end Jpeg

namespace Svg

/-- First index of `pat` in `s` (leftmost regex match position). -/
def findSub (pat : List Nat) : List Nat → Option Nat
  | [] => if pat.isEmpty then some 0 else none
  | c :: t => if pat <+: (c :: t) then some 0 else (findSub pat t).map (· + 1)

theorem findSub_bound (pat : List Nat) :
    ∀ s i, findSub pat s = some i → i + pat.length ≤ s.length := by
  intro s
  induction s with
  | nil =>
    intro i h
    simp only [findSub] at h
    by_cases hp : pat.isEmpty
    · simp [hp] at h
      simp [← h, List.isEmpty_iff.mp hp]
    · simp [hp] at h
  | cons c t ih =>
    intro i h
    simp only [findSub] at h
    by_cases hpre : pat <+: (c :: t)
    · simp [hpre] at h
      subst h
      simpa using hpre.length_le
    · simp [hpre] at h
      obtain ⟨j, hj, rfl⟩ := h
      have := ih j hj
      simp [List.length_cons]
      omega

/-- `text.replace(/<open[\s\S]*?<\/close>/gi, "")`: repeatedly remove,
left to right, the span from a case-insensitive occurrence of `openPat`
to the earliest following occurrence of `closePat` (lazy match).  The
patterns in the source are non-empty literals. -/
def removeBlocksCIAux (openPat closePat : List Nat) : Nat → List Nat → List Nat
  | 0, s => s
  | fuel + 1, s =>
    if openPat.isEmpty ∨ closePat.isEmpty then s
    else
      match findSub openPat (s.map asciiLower) with
      | none => s
      | some i =>
        match findSub closePat ((s.map asciiLower).drop (i + openPat.length)) with
        | none => s
        | some j =>
          let endPos := i + openPat.length + j + closePat.length
          s.take i ++ removeBlocksCIAux openPat closePat fuel (s.drop endPos)

def removeBlocksCI (openPat closePat s : List Nat) : List Nat :=
  removeBlocksCIAux openPat closePat s.length s

/-- `result.replace(/(<svg[^>]*>)/i, "$1" + insert)`: insert after the
first case-insensitive `<svg ...>` tag, or leave the text unchanged when
no such tag (with a closing `>`) exists. -/
def insertAfterSvgTag (s insert : List Nat) : List Nat :=
  match findSub (u16 "<svg") (s.map asciiLower) with
  | none => s
  | some i =>
    match findSub [62] (s.drop (i + 4)) with
    | none => s
    | some j =>
      let tagEnd := i + 4 + j + 1
      s.take tagEnd ++ insert ++ s.drop tagEnd

/-- The `parts` list of `buildMetadataElement`. -/
def metaParts (meta : EmbedMetadataInput) : List (List Nat) :=
  let keywords :=
    if jsTruthy meta.keywords then
      (splitCommaWs (getStr meta.keywords)).filter (fun k => !k.isEmpty)
    else []
  (if jsTruthy meta.title then
     [u16 "      <dc:title>" ++ escXml4 (getStr meta.title) ++ u16 "</dc:title>"]
   else []) ++
  (if jsTruthy meta.description then
     [u16 "      <dc:description>" ++ escXml4 (getStr meta.description) ++
       u16 "</dc:description>"]
   else []) ++
  (if !keywords.isEmpty then
     [u16 "      <dc:subject>\n        <rdf:Bag>\n" ++
       List.intercalate (u16 "\n")
         (keywords.map (fun k => u16 "          <rdf:li>" ++ escXml4 k ++ u16 "</rdf:li>")) ++
       u16 "\n        </rdf:Bag>\n      </dc:subject>"]
   else [])

/-- `buildMetadataElement`: empty string when no part is present. -/
def buildMetadataElement (meta : EmbedMetadataInput) : List Nat :=
  let parts := metaParts meta
  if parts.isEmpty then []
  else
    u16 "<metadata>\n  <rdf:RDF xmlns:rdf=\"http://www.w3.org/1999/02/22-rdf-syntax-ns#\"\n           xmlns:dc=\"http://purl.org/dc/elements/1.1/\">\n    <rdf:Description rdf:about=\"\">\n" ++
    List.intercalate (u16 "\n") parts ++
    u16 "\n    </rdf:Description>\n  </rdf:RDF>\n</metadata>"

/-- `embedSvgMetadata` (byte-level; `file.text()` decodes UTF-8). -/
def embedSvgMetadata (bytes : List Nat) (metadata : EmbedMetadataInput) :
    Option (List Nat) :=
  let text := utf16OfUtf8 bytes
  if ¬(u16 "<svg" <:+: text) ∧ ¬(u16 "<SVG" <:+: text) then none
  else
    let metaBlock := buildMetadataElement metadata
    if metaBlock.isEmpty then none
    else
      let r1 := removeBlocksCI (u16 "<metadata") (u16 "</metadata>") text
      let result :=
        if jsTruthy metadata.title then
          let r2 := removeBlocksCI (u16 "<title") (u16 "</title>") r1
          let titleElement :=
            u16 "<title>" ++ escXml4 (getStr metadata.title) ++ u16 "</title>"
          insertAfterSvgTag r2 (u16 "\n" ++ titleElement ++ u16 "\n" ++ metaBlock ++ u16 "\n")
        else insertAfterSvgTag r1 (u16 "\n" ++ metaBlock ++ u16 "\n")
      some (utf8OfUtf16 result)

end Svg

/-! ## Orchestrator (`embedMetadata.ts`) -/

/-- The AI output record (`MetaGenOutput` in `types.ts`). -/
structure MetaGenOutput where
  title : List Nat := []
  description : List Nat := []
  altText : List Nat := []
  keywords : List Nat := []
  hashtags : List Nat := []
  categories : List Nat := []

inductive EmbedPreset where
  | custom | adobe_stock | shutterstock | getty_images | freepik | istock
deriving DecidableEq

/-- `EmbedSettings` from `embedMetadata.ts`. -/
structure EmbedSettings where
  enabled : Bool
  embedTitle : Bool
  embedDescription : Bool
  embedKeywords : Bool
  embedCopyright : Bool
  copyrightText : List Nat
  renameWithTitle : Bool
  preset : EmbedPreset

def defaultEmbedSettings : EmbedSettings :=
  { enabled := false, embedTitle := true, embedDescription := true,
    embedKeywords := true, embedCopyright := false, copyrightText := [],
    renameWithTitle := false, preset := EmbedPreset.custom }

/-- A browser `File` as the engine sees it: name, MIME type, bytes. -/
structure JSFile where
  name : List Nat
  mime : List Nat
  bytes : List Nat

def isJpegFile (f : JSFile) : Bool :=
  f.mime = u16 "image/jpeg" || extOf f.name = u16 "jpg" || extOf f.name = u16 "jpeg"

def isPngFile (f : JSFile) : Bool :=
  f.mime = u16 "image/png" || extOf f.name = u16 "png"

def isWebpFile (f : JSFile) : Bool :=
  f.mime = u16 "image/webp" || extOf f.name = u16 "webp"

def isSvgFile (f : JSFile) : Bool :=
  f.mime = u16 "image/svg+xml" || extOf f.name = u16 "svg"

def isGifFile (f : JSFile) : Bool :=
  f.mime = u16 "image/gif" || extOf f.name = u16 "gif"

/-- Replace each run of units satisfying `p` by the single unit `rep`
(`replace(/p+/g, rep)` for a character-class regex). -/
def collapseRunsAux (p : Nat → Bool) (rep : Nat) : Nat → List Nat → List Nat
  | 0, _ => []
  | _ + 1, [] => []
  | fuel + 1, c :: rest =>
    if p c then rep :: collapseRunsAux p rep fuel (rest.dropWhile p)
    else c :: collapseRunsAux p rep fuel rest

def collapseRuns (p : Nat → Bool) (rep : Nat) (s : List Nat) : List Nat :=
  collapseRunsAux p rep s.length s

/-- `replace(/^-|-$/g, "")`: remove one leading and one trailing hyphen. -/
def stripEdgeDash (s : List Nat) : List Nat :=
  let a := match s with | 45 :: t => t | other => other
  if a.getLast? = some 45 then a.dropLast else a

/-- `sanitizeFilename` from `embedMetadata.ts`. -/
def sanitizeFilename (title : List Nat) : List Nat :=
  stripEdgeDash (collapseRuns (fun c => c = 45) 45 (collapseRuns isJsWs 45
    ((title.map asciiLower).filter
      (fun c => (97 ≤ c && c ≤ 122) || (48 ≤ c && c ≤ 57) || isJsWs c || c = 45))))

/-- `s.split(",")` (literal separator, no whitespace skipping). -/
def splitComma (s : List Nat) : List (List Nat) :=
  jsSplit (fun c => c = 44) (fun _ => false) s

/-- The `EmbedMetadataInput` record assembled by `embedMetadataIntoImage`
from the AI output and the settings: keywords and categories are merged,
trimmed, de-duplicated (first occurrence kept, like a JS `Set`) and
re-joined with `", "`. -/
def buildEmbedMetadata (output : MetaGenOutput) (settings : EmbedSettings) :
    EmbedMetadataInput :=
  { title := if settings.embedTitle && !output.title.isEmpty then some output.title else none
    description :=
      if settings.embedDescription && !output.description.isEmpty then some output.description
      else none
    altText := if !output.altText.isEmpty then some output.altText else none
    keywords :=
      if settings.embedKeywords then
        let kw := if !output.keywords.isEmpty then splitComma output.keywords else []
        let cats := if !output.categories.isEmpty then splitComma output.categories else []
        let merged := ((kw ++ cats).map jsTrim).filter (fun k => !k.isEmpty)
        if !merged.isEmpty then some (List.intercalate (u16 ", ") merged.eraseDups)
        else none
      else none
    category := none }

/-- The format dispatch of `embedMetadataIntoImage`: the first matching
classifier is used; `none` when no classifier matches or the chosen
embedder declines (returns `null`). -/
def embedDispatch (file : JSFile) (metadata : EmbedMetadataInput) : Option (List Nat) :=
  if isJpegFile file then Jpeg.embedJpegMetadata file.bytes metadata
  else if isPngFile file then Png.embedPngMetadata file.bytes metadata
  else if isWebpFile file then Webp.embedWebpMetadata file.bytes metadata
  else if isSvgFile file then Svg.embedSvgMetadata file.bytes metadata
  else if isGifFile file then Gif.embedGifMetadata file.bytes metadata
  else none

/-- The MIME type assigned alongside a successful dispatch. -/
def dispatchMime (file : JSFile) : List Nat :=
  if isJpegFile file then u16 "image/jpeg"
  else if isPngFile file then u16 "image/png"
  else if isWebpFile file then u16 "image/webp"
  else if isSvgFile file then u16 "image/svg+xml"
  else if isGifFile file then u16 "image/gif"
  else file.mime

/-- The result of `embedMetadataIntoImage`: blob bytes, blob MIME type,
chosen filename, and whether embedding occurred. -/
structure EmbedResult where
  blobBytes : List Nat
  mime : List Nat
  filename : List Nat
  embedded : Bool

/-- `embedMetadataIntoImage`: rename when requested, short-circuit when
embedding is disabled, otherwise dispatch on the sniffed format and fall
back to the original bytes with `embedded = false` when no embedder
matches or the matched embedder declines.  All model functions are
total, so the `try/catch` fallback of the source is unreachable. -/
def embedMetadataIntoImage (file : JSFile) (output : MetaGenOutput)
    (settings : EmbedSettings) : EmbedResult :=
  let ext := extOf file.name
  let newFilename :=
    if settings.renameWithTitle && !output.title.isEmpty then
      let sanitized := sanitizeFilename output.title
      if !sanitized.isEmpty then
        sanitized ++ [46] ++ (if ext = u16 "jpeg" then u16 "jpg" else ext)
      else file.name
    else file.name
  if !settings.enabled then
    { blobBytes := file.bytes, mime := file.mime, filename := newFilename, embedded := false }
  else
    match embedDispatch file (buildEmbedMetadata output settings) with
    | none =>
      { blobBytes := file.bytes, mime := file.mime, filename := newFilename,
        embedded := false }
    | some result =>
      { blobBytes := result, mime := dispatchMime file, filename := newFilename,
        embedded := true }

/-! ## Measurement: structural parsers used to state the claims -/

/-- Parse PNG chunks (type bytes, data bytes) from the byte stream after
the signature; parsing stops at a truncated chunk. -/
def pngChunksOfAux : Nat → List Nat → List (List Nat × List Nat)
  | 0, _ => []
  | fuel + 1, data =>
    if 8 ≤ data.length then
      let len := readBE32 data
      let chunkTotal := 4 + 4 + len + 4
      if chunkTotal ≤ data.length then
        ((data.drop 4).take 4, (data.drop 8).take len) ::
          pngChunksOfAux fuel (data.drop chunkTotal)
      else []
    else []

def pngChunksOf (data : List Nat) : List (List Nat × List Nat) :=
  pngChunksOfAux data.length data

/-- The iTXt keyword: data bytes up to the first NUL. -/
def pngKeywordOf (d : List Nat) : List Nat := d.takeWhile (fun b => b ≠ 0)

/-- Number of `iTXt` chunks with the given keyword among the chunks of
`data` (bytes after the 8-byte signature). -/
def countITXtKeyword (kw : List Nat) (data : List Nat) : Nat :=
  (pngChunksOf data).countP (fun c => c.1 = Png.iTXtBytes && pngKeywordOf c.2 = kw)

/-- Parse consecutive JPEG APPn marker segments `(marker, payload)`;
parsing stops at a non-`0xFF` byte, a marker outside `0xE0`–`0xEF`, a
declared length below 2, or a truncated payload. -/
def jpegMarkerSegsAux : Nat → List Nat → List (Nat × List Nat)
  | 0, _ => []
  | fuel + 1, data =>
    if data.getD 0 9 = 0xFF ∧ 0xE0 ≤ data.getD 1 0 ∧ data.getD 1 0 ≤ 0xEF then
      let len := data.getD 2 0 * 256 + data.getD 3 0
      if 2 ≤ len ∧ 2 + len ≤ data.length then
        (data.getD 1 0, (data.drop 4).take (len - 2)) ::
          jpegMarkerSegsAux fuel (data.drop (2 + len))
      else []
    else []

def jpegMarkerSegs (data : List Nat) : List (Nat × List Nat) :=
  jpegMarkerSegsAux data.length data

/-- Number of APP1 segments whose payload starts with `"Exif\0\0"`
among the leading marker segments of a JPEG (bytes after SOI). -/
def countExifApp1 (data : List Nat) : Nat :=
  (jpegMarkerSegs (data.drop 2)).countP
    (fun s => s.1 = 0xE1 && decide (Jpeg.exifIdent <+: s.2))

/-- Number of APP13 segments among the leading marker segments. -/
def countApp13 (data : List Nat) : Nat :=
  (jpegMarkerSegs (data.drop 2)).countP (fun s => s.1 = 0xED)

/-- The 2-byte little-endian tag of each of `n` consecutive 12-byte
IFD entries, read off a byte stream. -/
def tagsOfIfdBytes : Nat → List Nat → List Nat
  | 0, _ => []
  | n + 1, bytes =>
    (bytes.getD 0 0 + bytes.getD 1 0 * 256) :: tagsOfIfdBytes n (bytes.drop 12)

/-- The IFD0 tag list of a built EXIF APP1 segment, read from its
serialized bytes: the entry count sits at bytes 18–19 (little-endian,
after the marker, the length field, `"Exif\0\0"` and the 8-byte TIFF
header) and the 12-byte entries start at byte 20. -/
def exifTagsOf (seg : List Nat) : List Nat :=
  tagsOfIfdBytes (seg.getD 18 0 + seg.getD 19 0 * 256) (seg.drop 20)

/-- A marker segment the JPEG splice scan steps over: `0xFF`, then an
APP1 (`0xE1`), APP13 (`0xED`) or APP0 (`0xE0`) marker, then a
big-endian length field that counts itself, matching the segment's
byte length. -/
def JpegSkipSeg (s : List Nat) : Prop :=
  4 ≤ s.length ∧ s.getD 0 0 = 0xFF ∧
  (s.getD 1 0 = 0xE1 ∨ s.getD 1 0 = 0xED ∨ s.getD 1 0 = 0xE0) ∧
  s.length = 2 + (s.getD 2 0 * 256 + s.getD 3 0)

/-- A buffer remainder at which the JPEG splice scan stops: fewer than
two bytes left, a byte other than `0xFF`, or a marker the scan does
not skip. -/
def JpegStops (rest : List Nat) : Prop :=
  rest.length ≤ 1 ∨ rest.getD 0 0 ≠ 0xFF ∨
  (rest.getD 1 0 ≠ 0xE1 ∧ rest.getD 1 0 ≠ 0xED ∧ rest.getD 1 0 ≠ 0xE0)

instance (s : List Nat) : Decidable (JpegSkipSeg s) := by
  unfold JpegSkipSeg; infer_instance

instance (rest : List Nat) : Decidable (JpegStops rest) := by
  unfold JpegStops; infer_instance

/-- A well-formed serialized PNG chunk: its byte length matches its
declared data length plus the 12 header/CRC bytes. -/
def PngChunkWF (c : List Nat) : Prop :=
  c.length = 12 + readBE32 c

/-- A buffer remainder at which the PNG text-chunk rescan stops:
fewer than 8 bytes left, or the declared chunk length runs past the
end of the buffer. -/
def PngStripStops (rem : List Nat) : Prop :=
  rem.length < 8 ∨ rem.length < 12 + readBE32 rem

/-- A well-formed serialized WebP RIFF chunk: its byte length matches
its declared data length plus header and odd-length padding. -/
def WebpChunkWF (c : List Nat) : Prop :=
  c.length = 8 + readU32LE (c.drop 4) +
    (if readU32LE (c.drop 4) % 2 = 1 then 1 else 0)

/-- A buffer remainder at which the WebP chunk rescan stops: fewer
than 8 bytes left, or the declared total chunk length overruns the
buffer by more than the tolerated single byte. -/
def WebpScanStops (rem : List Nat) : Prop :=
  rem.length < 8 ∨ rem.length + 1 < 8 + readU32LE (rem.drop 4) +
    (if readU32LE (rem.drop 4) % 2 = 1 then 1 else 0)

instance (c : List Nat) : Decidable (PngChunkWF c) := by
  unfold PngChunkWF; infer_instance

instance (rem : List Nat) : Decidable (PngStripStops rem) := by
  unfold PngStripStops; infer_instance

instance (c : List Nat) : Decidable (WebpChunkWF c) := by
  unfold WebpChunkWF; infer_instance

instance (rem : List Nat) : Decidable (WebpScanStops rem) := by
  unfold WebpScanStops; infer_instance

/-- A buffer remainder that stops both the JPEG splice scan and the
marker-segment parser: no `0xFF`, or a marker outside `0xE0`–`0xEF`. -/
def JpegHardStop (rest : List Nat) : Prop :=
  rest.getD 0 0 ≠ 0xFF ∨ rest.getD 1 0 < 0xE0 ∨ 0xEF < rest.getD 1 0

/-- A well-formed serialized EXIF APP1 segment: marker `0xFF 0xE1`, a
length field matching the segment, and an `"Exif\0\0"` payload
identifier. -/
def ExifApp1WF (s : List Nat) : Prop :=
  10 ≤ s.length ∧ s.getD 0 0 = 0xFF ∧ s.getD 1 0 = 0xE1 ∧
  s.length = 2 + (s.getD 2 0 * 256 + s.getD 3 0) ∧
  Jpeg.exifIdent <+: s.drop 4

/-- An XMP APP1 segment slot: either omitted entirely or a well-formed
APP1 segment whose payload is not an EXIF (`"Exif\0\0"`) payload. -/
def XmpApp1OK (s : List Nat) : Prop :=
  s = [] ∨ (JpegSkipSeg s ∧ s.getD 1 0 = 0xE1 ∧ ¬ (Jpeg.exifIdent <+: s.drop 4))

instance (rest : List Nat) : Decidable (JpegHardStop rest) := by
  unfold JpegHardStop; infer_instance

instance (s : List Nat) : Decidable (ExifApp1WF s) := by
  unfold ExifApp1WF; infer_instance

instance (s : List Nat) : Decidable (XmpApp1OK s) := by
  unfold XmpApp1OK; infer_instance

/-! ## General helper lemmas -/

theorem getD_eq_getElem?_zero (l : List Nat) (i : Nat) :
    l.getD i 0 = l[i]?.getD 0 := List.getD_eq_getElem?_getD l i 0

theorem getD_append_left {l₁ l₂ : List Nat} {i : Nat} (h : i < l₁.length) :
    (l₁ ++ l₂).getD i 0 = l₁.getD i 0 := by
  rw [getD_eq_getElem?_zero, getD_eq_getElem?_zero, List.getElem?_append_left h]

theorem getD_append_at (l₁ l₂ : List Nat) (i : Nat) :
    (l₁ ++ l₂).getD (l₁.length + i) 0 = l₂.getD i 0 := by
  rw [getD_eq_getElem?_zero, getD_eq_getElem?_zero,
    List.getElem?_append_right (Nat.le_add_right _ _)]
  simp

theorem readBE32_append {c : List Nat} (x : List Nat) (h : 4 ≤ c.length) :
    readBE32 (c ++ x) = readBE32 c := by
  unfold readBE32
  rw [getD_append_left (by omega), getD_append_left (by omega),
    getD_append_left (by omega), getD_append_left (by omega)]

theorem readU32LE_append {c : List Nat} (x : List Nat) (h : 4 ≤ c.length) :
    readU32LE (c ++ x) = readU32LE c := by
  unfold readU32LE
  rw [getD_append_left (by omega), getD_append_left (by omega),
    getD_append_left (by omega), getD_append_left (by omega)]

theorem readU32LE_writeU32LE (v : Nat) (tail : List Nat) (h : v < 4294967296) :
    readU32LE (writeU32LE v ++ tail) = v := by
  simp [writeU32LE, readU32LE, List.getD]
  omega

/-- `drop` across a left factor of known length. -/
theorem drop_append_left {a : List Nat} (b : List Nat) {n : Nat} (h : n ≤ a.length) :
    (a ++ b).drop n = a.drop n ++ b := List.drop_append_of_le_length h

/-- `take` across a left factor of known length. -/
theorem take_append_left {a : List Nat} (b : List Nat) {n : Nat} (h : n ≤ a.length) :
    (a ++ b).take n = a.take n := List.take_append_of_le_length h

theorem utf8OfUtf16_nil : utf8OfUtf16 [] = [] := rfl

theorem utf8OfUtf16_cons_ascii {c : Nat} (rest : List Nat) (hc : c < 128) :
    utf8OfUtf16 (c :: rest) = c :: utf8OfUtf16 rest := by
  cases rest with
  | nil => simp [utf8OfUtf16, hc]
  | cons c2 t => simp [utf8OfUtf16, hc]

/-- UTF-8 bytes of an ASCII string are the code units themselves. -/
theorem utf8OfUtf16_ascii :
    ∀ {l : List Nat}, (∀ c ∈ l, c < 128) → utf8OfUtf16 l = l := by
  intro l
  induction l with
  | nil => intro _; exact utf8OfUtf16_nil
  | cons c rest ih =>
    intro h
    rw [utf8OfUtf16_cons_ascii rest (h c (by simp))]
    rw [ih (fun x hx => h x (by simp [hx]))]

/-- UTF-8 encoding is length-preserving on ASCII strings. -/
theorem utf8OfUtf16_length_ascii {l : List Nat} (h : ∀ c ∈ l, c < 128) :
    (utf8OfUtf16 l).length = l.length := by
  rw [utf8OfUtf16_ascii h]

theorem encodeUTF16LE_length (s : List Nat) :
    (Jpeg.encodeUTF16LE s).length = 2 * s.length + 2 := by
  simp [Jpeg.encodeUTF16LE, List.length_flatMap, Function.comp]
  induction s with
  | nil => simp
  | cons c rest ih => simp [ih]; omega

theorem mem_jsTrim {c : Nat} {s : List Nat} (h : c ∈ jsTrim s) : c ∈ s := by
  unfold jsTrim at h
  rw [List.mem_reverse] at h
  have h1 := (List.dropWhile_sublist (l := (s.dropWhile isJsWs).reverse)
    (p := isJsWs)).mem h
  rw [List.mem_reverse] at h1
  exact (List.dropWhile_sublist _).mem h1

theorem pngKeywordOf_concat {a : List Nat} (r : List Nat)
    (h : ∀ x ∈ a, x ≠ 0) :
    pngKeywordOf (a ++ 0 :: r) = a := by
  unfold pngKeywordOf
  induction a with
  | nil => simp [List.takeWhile]
  | cons x t ih =>
    have hx : x ≠ 0 := h x (by simp)
    rw [List.cons_append, List.takeWhile_cons]
    rw [if_pos (by simp [hx]), ih (fun y hy => h y (by simp [hy]))]

/-! ## Claim theorems -/

/-- C10: for every buffer with a valid 8-byte PNG signature,
`embedPngMetadata` returns a new buffer and never reports "not
applicable", even when the metadata record has no fields present: the
`iTXt` chunk keyed `XML:com.adobe.xmp` is built unconditionally, so the
branch returning `null` for an empty chunk list is unreachable. -/
theorem png_embed_always_some (data : List Nat) (md : EmbedMetadataInput)
    (h : data.take 8 = Png.pngSig) :
    (Png.embedPngMetadata data md).isSome = true := by
  have hne : (Png.pngMetaChunks md).isEmpty = false := by
    unfold Png.pngMetaChunks
    simp
  unfold Png.embedPngMetadata
  simp [h, hne]

theorem png_embed_always_some_witness :
    (Png.pngSig.take 8 = Png.pngSig) ∧
    (Png.embedPngMetadata Png.pngSig {}).isSome = true :=
  ⟨by decide, png_embed_always_some Png.pngSig {} (by decide)⟩

theorem append4_getElem? {a : List Nat} (b c d : List Nat) {i : Nat}
    (hi : i < a.length) : (a ++ b ++ c ++ d)[i]? = a[i]? := by
  have h1 : (a ++ b ++ c ++ d)[i]? = (a ++ b ++ c)[i]? :=
    List.getElem?_append_left (by simp [List.length_append]; omega)
  have h2 : (a ++ b ++ c)[i]? = (a ++ b)[i]? :=
    List.getElem?_append_left (by simp [List.length_append]; omega)
  rw [h1, h2]
  exact List.getElem?_append_left hi

/-- C8: for every buffer whose first six bytes are `"GIF87a"` or
`"GIF89a"`, the GIF embedder succeeds and its output has bytes 3–5
equal to `"89a"` (0x38 0x39 0x61), regardless of the input version. -/
theorem gif_version_upgraded (data : List Nat) (md : EmbedMetadataInput)
    (h : data.take 6 = u16 "GIF87a" ∨ data.take 6 = u16 "GIF89a") :
    ∃ out, Gif.embedGifMetadata data md = some out ∧
      out[3]? = some 56 ∧ out[4]? = some 57 ∧ out[5]? = some 97 := by
  have hlen : 6 ≤ data.length := by
    have h6a : (u16 "GIF87a").length = 6 := by decide
    have h6b : (u16 "GIF89a").length = 6 := by decide
    rcases h with h | h <;>
    · have := congrArg List.length h
      rw [List.length_take] at this
      omega
  simp only [Gif.embedGifMetadata, if_pos h]
  refine ⟨_, rfl, ?_, ?_, ?_⟩
  · rw [append4_getElem? _ _ _ (by simp [List.length_take]; omega),
      List.getElem?_take_of_lt (by omega),
      List.getElem?_set_ne (by decide), List.getElem?_set_ne (by decide),
      List.getElem?_set_eq (by omega)]
  · rw [append4_getElem? _ _ _ (by simp [List.length_take]; omega),
      List.getElem?_take_of_lt (by omega),
      List.getElem?_set_ne (by decide),
      List.getElem?_set_eq (by simp [List.length_set]; omega)]
  · rw [append4_getElem? _ _ _ (by simp [List.length_take]; omega),
      List.getElem?_take_of_lt (by omega),
      List.getElem?_set_eq (by simp [List.length_set]; omega)]

theorem gif_version_upgraded_witness :
    ((u16 "GIF87a" ++ [0, 0, 0, 0, 0, 0, 0]).take 6 = u16 "GIF87a" ∨
      (u16 "GIF87a" ++ [0, 0, 0, 0, 0, 0, 0]).take 6 = u16 "GIF89a") ∧
    (∃ out, Gif.embedGifMetadata (u16 "GIF87a" ++ [0, 0, 0, 0, 0, 0, 0]) {} = some out ∧
      out[3]? = some 56 ∧ out[4]? = some 57 ∧ out[5]? = some 97) :=
  ⟨Or.inl (by decide),
    gif_version_upgraded (u16 "GIF87a" ++ [0, 0, 0, 0, 0, 0, 0]) {} (Or.inl (by decide))⟩

/-- C1: whenever the dispatch finds no matching format, the signature
check of the matched embedder fails, or the matched embedder declines
(returns `null`), `embedMetadataIntoImage` returns the original bytes
verbatim together with `embedded = false`.  (In this model every
embedder is a total function, mirroring that the source never throws
across this boundary; the source's `try/catch` fallback is
unreachable.) -/
theorem orchestrator_fallback (f : JSFile) (o : MetaGenOutput) (s : EmbedSettings)
    (h : embedDispatch f (buildEmbedMetadata o s) = none) :
    (embedMetadataIntoImage f o s).blobBytes = f.bytes ∧
    (embedMetadataIntoImage f o s).embedded = false := by
  unfold embedMetadataIntoImage
  by_cases he : s.enabled
  · simp [he, h]
  · simp [he]

theorem orchestrator_fallback_witness :
    (embedDispatch ⟨u16 "a.txt", u16 "text/plain", [1, 2, 3]⟩
        (buildEmbedMetadata {} { defaultEmbedSettings with enabled := true }) = none) ∧
    (embedMetadataIntoImage ⟨u16 "a.txt", u16 "text/plain", [1, 2, 3]⟩ {}
        { defaultEmbedSettings with enabled := true }).blobBytes = [1, 2, 3] ∧
    (embedMetadataIntoImage ⟨u16 "a.txt", u16 "text/plain", [1, 2, 3]⟩ {}
        { defaultEmbedSettings with enabled := true }).embedded = false :=
  ⟨by decide,
    orchestrator_fallback ⟨u16 "a.txt", u16 "text/plain", [1, 2, 3]⟩ {}
      { defaultEmbedSettings with enabled := true } (by decide)⟩

/-- Byte limit claimed for each IPTC tag
(Object Name 64, Headline 256, Caption-Abstract 2000, Category 3,
Keywords 64). -/
def iptcLimit (tag : Nat) : Nat :=
  if tag = 5 then 64
  else if tag = 105 then 256
  else if tag = 120 then 2000
  else if tag = 15 then 3
  else if tag = 25 then 64
  else 0

/-- C4 counterexample: with a 64-unit title of two-byte characters
(`é`, unit 233), the tag-5 (Object Name) dataset value is 128 encoded
bytes — `slice(0, 64)` truncates UTF-16 code units, not bytes, so the
64-byte limit is exceeded.  The first five bytes of the block show the
tag-5 dataset declaring a 128-byte value. -/
theorem iptc_byteLimit_counterexample :
    ((Jpeg.iptcDatasets { title := some (List.replicate 64 233) }).getD 0 (0, [])).1 = 5 ∧
    64 < (utf8OfUtf16
      ((Jpeg.iptcDatasets { title := some (List.replicate 64 233) }).getD 0 (0, [])).2).length ∧
    (Jpeg.createIPTCBlock { title := some (List.replicate 64 233) }).take 5 =
      [0x1C, 0x02, 5, 0, 128] := by
  set_option maxRecDepth 10000 in decide

/-- C4 amended: the IPTC truncation limits are code-unit limits; the
claimed byte limits hold for every metadata record whose relevant
fields are ASCII (every UTF-16 unit below 128), since then encoded
bytes and code units coincide. -/
theorem iptc_byteLimits_ascii (m : Jpeg.IPTCMeta)
    (ht : ∀ c ∈ getStr m.title, c < 128)
    (hd : ∀ c ∈ getStr m.description, c < 128)
    (hc : ∀ c ∈ getStr m.category, c < 128)
    (hk : ∀ k ∈ m.keywords, ∀ c ∈ k, c < 128) :
    ∀ td ∈ Jpeg.iptcDatasets m, (utf8OfUtf16 td.2).length ≤ iptcLimit td.1 := by
  intro td htd
  have hval : ∀ (src : List Nat) (n : Nat), (∀ c ∈ src, c < 128) →
      td.2 = src.take n → (utf8OfUtf16 td.2).length ≤ n := by
    intro src n hsrc heq
    rw [heq, utf8OfUtf16_length_ascii (fun c hcm => hsrc c (List.mem_of_mem_take hcm))]
    exact List.length_take_le n src
  unfold Jpeg.iptcDatasets at htd
  simp only [List.mem_append, List.mem_ite_nil_right, List.mem_singleton, List.mem_map,
    List.mem_filter] at htd
  rcases htd with ((((⟨_, h⟩ | ⟨_, h⟩) | ⟨_, h⟩) | ⟨_, h⟩) | ⟨k, ⟨hkm, _⟩, h⟩)
  · subst h
    simpa [iptcLimit] using hval (getStr m.title) 64 ht rfl
  · subst h
    simpa [iptcLimit] using hval (getStr m.title) 256 ht rfl
  · subst h
    simpa [iptcLimit] using hval (getStr m.description) 2000 hd rfl
  · subst h
    simpa [iptcLimit] using hval (getStr m.category) 3 hc rfl
  · subst h
    simpa [iptcLimit] using
      hval (jsTrim k) 64 (fun c hcm => hk k hkm c (mem_jsTrim hcm)) rfl

theorem iptc_byteLimits_ascii_witness :
    (∀ c ∈ getStr (some (u16 "T") : Option (List Nat)), c < 128) ∧
    (∀ td ∈ Jpeg.iptcDatasets
      { title := some (u16 "T"), description := some (u16 "a fox"),
        keywords := [u16 " fox "], category := some (u16 "cat") },
      (utf8OfUtf16 td.2).length ≤ iptcLimit td.1) :=
  ⟨by decide,
    iptc_byteLimits_ascii
      { title := some (u16 "T"), description := some (u16 "a fox"),
        keywords := [u16 " fox "], category := some (u16 "cat") }
      (by decide) (by decide) (by decide) (by decide)⟩

theorem createIFDEntry_length (tag ty count vo : Nat) :
    (Jpeg.createIFDEntry tag ty count vo).length = 12 := rfl

theorem mergeSort_pair {α : Type} (le : α → α → Bool) (a b : α) (h : le a b = true) :
    List.mergeSort [a, b] le = [a, b] := by
  simp [List.mergeSort, List.merge, h]

theorem exifLayout_nil (off : Nat) : Jpeg.exifLayout [] off = [] := rfl

theorem exifLayout_cons_big (tag ty : Nat) (d : List Nat)
    (rest : List (Nat × Nat × List Nat)) (off : Nat) (h : 4 < d.length) :
    Jpeg.exifLayout ((tag, ty, d) :: rest) off =
      (Jpeg.createIFDEntry tag ty d.length off,
        d ++ if d.length % 2 = 1 then [0] else []) ::
      Jpeg.exifLayout rest (off + d.length + d.length % 2) := by
  simp only [Jpeg.exifLayout]
  rw [if_neg (by omega)]

theorem replicate22000_ne_nil : ¬(List.replicate 22000 97 = []) := by
  intro hcon
  have hl := congrArg List.length hcon
  rw [List.length_replicate] at hl
  simp only [List.length_nil] at hl
  omega

theorem replicate22000_isEmpty : (List.replicate 22000 97).isEmpty = false :=
  Bool.eq_false_iff.mpr (fun hcon => replicate22000_ne_nil (List.isEmpty_iff.mp hcon))

theorem jsTruthy_replicate22000 : jsTruthy (some (List.replicate 22000 97)) = true := by
  show !(List.replicate 22000 97).isEmpty = true
  rw [replicate22000_isEmpty]
  rfl

theorem exifEntries_overflow : Jpeg.exifEntries { description := some (List.replicate 22000 97) } =
    [(0x010E, 2, utf8OfUtf16 (List.replicate 22000 97 ++ [0])),
     (0x9C9C, 1, Jpeg.encodeUTF16LE (List.replicate 22000 97))] := by
  have hf : jsTruthy (none : Option (List Nat)) = false := rfl
  simp only [Jpeg.exifEntries, hf, jsTruthy_replicate22000, Bool.or_false, Bool.false_or,
    Bool.or_true, Bool.true_or, if_true, if_false, List.isEmpty_nil, Bool.not_true, orFalsy,
    getStr, List.nil_append, List.append_nil, List.cons_append, List.singleton_append,
    Bool.false_eq_true]

theorem exifSorted_overflow : Jpeg.exifSorted { description := some (List.replicate 22000 97) } =
    [(0x010E, 2, utf8OfUtf16 (List.replicate 22000 97 ++ [0])),
     (0x9C9C, 1, Jpeg.encodeUTF16LE (List.replicate 22000 97))] := by
  rw [Jpeg.exifSorted, exifEntries_overflow]
  exact mergeSort_pair _ _ _ (by decide)

theorem overflow_desc_length : (utf8OfUtf16 (List.replicate 22000 97 ++ [0])).length = 22001 := by
  have hd1 : utf8OfUtf16 (List.replicate 22000 97 ++ [0]) =
      List.replicate 22000 97 ++ [0] := by
    apply utf8OfUtf16_ascii
    intro c hcm
    rcases List.mem_append.mp hcm with hcm | hcm
    · rw [List.eq_of_mem_replicate hcm]; omega
    · rw [List.mem_singleton.mp hcm]; omega
  rw [hd1, List.length_append, List.length_replicate, List.length_singleton]

theorem overflow_comment_length :
    (Jpeg.encodeUTF16LE (List.replicate 22000 97)).length = 44002 := by
  rw [encodeUTF16LE_length, List.length_replicate]

theorem exifLayout_overflow : Jpeg.exifLayout
    [(0x010E, 2, utf8OfUtf16 (List.replicate 22000 97 ++ [0])),
     (0x9C9C, 1, Jpeg.encodeUTF16LE (List.replicate 22000 97))] 38 =
    [(Jpeg.createIFDEntry 0x010E 2 22001 38,
        utf8OfUtf16 (List.replicate 22000 97 ++ [0]) ++ [0]),
     (Jpeg.createIFDEntry 0x9C9C 1 44002 22040,
        Jpeg.encodeUTF16LE (List.replicate 22000 97))] := by
  rw [exifLayout_cons_big _ _ _ _ _ (by rw [overflow_desc_length]; omega)]
  rw [overflow_desc_length]
  simp only [Nat.reduceAdd, Nat.reduceMod]
  rw [exifLayout_cons_big _ _ _ _ _ (by rw [overflow_comment_length]; omega)]
  rw [overflow_comment_length, exifLayout_nil]
  simp only [Nat.reduceAdd, Nat.reduceMod]
  rw [if_pos trivial]
  rw [if_neg (by omega)]
  rw [List.append_nil]

theorem exifTiffData_overflow_length :
    (Jpeg.exifTiffData { description := some (List.replicate 22000 97) }).length = 66042 := by
  rw [Jpeg.exifTiffData, exifSorted_overflow]
  simp only [List.length_cons, List.length_nil, Nat.reduceAdd, Nat.reduceMul]
  rw [exifLayout_overflow]
  simp only [List.map_cons, List.map_nil, List.flatten_cons, List.flatten_nil,
    List.append_nil]
  rw [List.length_append, List.length_append, List.length_append, List.length_append]
  have hA : ([73, 73, 42, 0, 8, 0, 0, 0] : List Nat).length = 8 := rfl
  have hB : ([2 % 256, 2 / 256 % 256] : List Nat).length = 2 := rfl
  have hD : ([0, 0, 0, 0] : List Nat).length = 4 := rfl
  have hC : (Jpeg.createIFDEntry 270 2 22001 38 ++
      Jpeg.createIFDEntry 40092 1 44002 22040).length = 24 := by
    rw [List.length_append, createIFDEntry_length, createIFDEntry_length]
  have hE : ((utf8OfUtf16 (List.replicate 22000 97 ++ [0]) ++ [0]) ++
      Jpeg.encodeUTF16LE (List.replicate 22000 97)).length = 66004 := by
    rw [List.length_append, List.length_append, overflow_desc_length,
      overflow_comment_length, List.length_singleton]
  rw [hA, hB, hC, hD, hE]

theorem exif_overflow_parts :
    (Jpeg.createEXIFSegment { description := some (List.replicate 22000 97) }).length = 66052 ∧
    (Jpeg.createEXIFSegment { description := some (List.replicate 22000 97) })[2]? = some 2 ∧
    (Jpeg.createEXIFSegment { description := some (List.replicate 22000 97) })[3]? = some 2 := by
  have hguard : (!jsTruthy (none : Option (List Nat)) &&
      !jsTruthy (some (List.replicate 22000 97)) && List.isEmpty ([] : List (List Nat))) =
      false := by
    rw [jsTruthy_replicate22000]
    rfl
  rw [Jpeg.createEXIFSegment, if_neg (by rw [hguard]; exact Bool.false_ne_true)]
  have hidlen : Jpeg.exifIdent.length = 6 := rfl
  refine ⟨?_, ?_, ?_⟩
  · rw [List.length_append, List.length_append, exifTiffData_overflow_length, hidlen]
    decide
  · rw [List.getElem?_append_left (by rw [List.length_append]; omega),
      List.getElem?_append_left (by norm_num)]
    rw [hidlen, exifTiffData_overflow_length]
    decide
  · rw [List.getElem?_append_left (by rw [List.length_append]; omega),
      List.getElem?_append_left (by norm_num)]
    rw [hidlen, exifTiffData_overflow_length]
    decide

/-- C5 counterexample: a 22000-character ASCII description makes the
built EXIF APP1 segment 66052 bytes (its declared segment length 66050
exceeds the 16-bit capacity 65535), yet the segment is emitted — with
its 2-byte length field wrapped to 0x0202 = 514 — rather than omitted
as the claim states. -/
theorem exif_overflow_counterexample :
    65535 < (Jpeg.createEXIFSegment { description := some (List.replicate 22000 97) }).length - 2 ∧
    (Jpeg.createEXIFSegment { description := some (List.replicate 22000 97) }).length = 66052 ∧
    (Jpeg.createEXIFSegment { description := some (List.replicate 22000 97) })[2]? = some 2 ∧
    (Jpeg.createEXIFSegment { description := some (List.replicate 22000 97) })[3]? = some 2 := by
  obtain ⟨h1, h2, h3⟩ := exif_overflow_parts
  refine ⟨?_, h1, h2, h3⟩
  rw [h1]; decide

/-- C5 amended: only the XMP APP1 segment is guarded against 16-bit
length overflow — it is either omitted (empty) or emitted within
capacity with a correct big-endian length field, never malformed; the
EXIF segment has no such guard (see the counterexample). -/
theorem xmp_segment_never_malformed (m : Jpeg.XmpMeta) :
    Jpeg.createXMPSegment m = [] ∨
    ((Jpeg.createXMPSegment m).length ≤ 65537 ∧
      (Jpeg.createXMPSegment m)[2]?.getD 0 * 256 + (Jpeg.createXMPSegment m)[3]?.getD 0 =
        (Jpeg.createXMPSegment m).length - 2) := by
  rw [Jpeg.createXMPSegment]
  by_cases hall : Jpeg.xmpAllEmpty m
  · simp [hall]
  · simp only [hall, Bool.false_eq_true, if_false]
    set xb := utf8OfUtf16 (Jpeg.xmpPacketOf m) with hxb
    have hid : Jpeg.xapIdent.length = 29 := by decide
    by_cases hbig : 2 + Jpeg.xapIdent.length + xb.length > 0xFFFF
    · simp [hbig]
    · right
      simp only [hbig, if_false]
      push_neg at hbig
      constructor
      · simp [List.length_append, hid]
        omega
      · rw [List.getElem?_append_left (by simp), List.getElem?_append_left (by simp)]
        simp [List.length_append, hid]
        omega

/-- C9: for every accepted WebP input, the rebuilt file's RIFF size
field at bytes 4–7 (little-endian) equals 4 plus the sum of the total
byte lengths (header, data and padding included) of all chunks emitted
after it — equivalently the output length minus 8 — and the freshly
built `"XMP "` chunk is the last of those chunks (a suffix of the
output). -/
theorem webp_size_field (data : List Nat) (md : EmbedMetadataInput) (out : List Nat)
    (h : Webp.embedWebpMetadata data md = some out)
    (hsz : ((Webp.scanChunks (data.drop 12) ++ [Webp.xmpChunkBytes md]).map List.length).sum
      + 4 < 4294967296) :
    readU32LE (out.drop 4) =
      4 + ((Webp.scanChunks (data.drop 12) ++ [Webp.xmpChunkBytes md]).map List.length).sum ∧
    readU32LE (out.drop 4) = out.length - 8 ∧
    Webp.xmpChunkBytes md <:+ out := by
  have hout : out = Webp.riffBytes ++
      writeU32LE (4 + ((Webp.scanChunks (data.drop 12) ++
        [Webp.xmpChunkBytes md]).map List.length).sum) ++
      Webp.webpBytes ++ (Webp.scanChunks (data.drop 12) ++ [Webp.xmpChunkBytes md]).flatten := by
    unfold Webp.embedWebpMetadata at h
    by_cases h12 : data.length < 12
    · rw [if_pos h12] at h; exact absurd h (by simp)
    · rw [if_neg h12] at h
      by_cases hsig : data.take 4 = Webp.riffBytes ∧ (data.drop 8).take 4 = Webp.webpBytes
      · rw [if_pos hsig] at h
        exact (Option.some.inj h).symm
      · rw [if_neg hsig] at h; exact absurd h (by simp)
  have hdrop : out.drop 4 =
      writeU32LE (4 + ((Webp.scanChunks (data.drop 12) ++
        [Webp.xmpChunkBytes md]).map List.length).sum) ++
      (Webp.webpBytes ++ (Webp.scanChunks (data.drop 12) ++ [Webp.xmpChunkBytes md]).flatten) := by
    rw [hout]
    simp only [List.append_assoc]
    rw [show (4 : Nat) = Webp.riffBytes.length from rfl, List.drop_left]
  have hread : readU32LE (out.drop 4) =
      4 + ((Webp.scanChunks (data.drop 12) ++ [Webp.xmpChunkBytes md]).map List.length).sum := by
    rw [hdrop]
    exact readU32LE_writeU32LE _ _ (by omega)
  have hlen : out.length =
      12 + ((Webp.scanChunks (data.drop 12) ++ [Webp.xmpChunkBytes md]).map List.length).sum := by
    rw [hout]
    simp only [List.length_append, List.length_flatten]
    have h1 : Webp.riffBytes.length = 4 := rfl
    have h2 : Webp.webpBytes.length = 4 := rfl
    have h3 : (writeU32LE (4 + ((Webp.scanChunks (data.drop 12) ++
        [Webp.xmpChunkBytes md]).map List.length).sum)).length = 4 := rfl
    rw [h1, h2, h3]
  refine ⟨hread, by rw [hread, hlen]; omega, ?_⟩
  rw [hout]
  refine ⟨Webp.riffBytes ++
    writeU32LE (4 + ((Webp.scanChunks (data.drop 12) ++
      [Webp.xmpChunkBytes md]).map List.length).sum) ++
    Webp.webpBytes ++ (Webp.scanChunks (data.drop 12)).flatten, ?_⟩
  simp [List.flatten_append, List.append_assoc]

set_option maxRecDepth 40000 in
theorem webp_size_field_witness :
    Webp.embedWebpMetadata (Webp.riffBytes ++ [4, 0, 0, 0] ++ Webp.webpBytes) {} =
      some ((Webp.embedWebpMetadata
        (Webp.riffBytes ++ [4, 0, 0, 0] ++ Webp.webpBytes) {}).getD []) ∧
    ((Webp.scanChunks ((Webp.riffBytes ++ [4, 0, 0, 0] ++ Webp.webpBytes).drop 12) ++
      [Webp.xmpChunkBytes {}]).map List.length).sum + 4 < 4294967296 ∧
    (readU32LE (((Webp.embedWebpMetadata
        (Webp.riffBytes ++ [4, 0, 0, 0] ++ Webp.webpBytes) {}).getD []).drop 4) =
      4 + ((Webp.scanChunks ((Webp.riffBytes ++ [4, 0, 0, 0] ++ Webp.webpBytes).drop 12) ++
        [Webp.xmpChunkBytes {}]).map List.length).sum ∧
    readU32LE (((Webp.embedWebpMetadata
        (Webp.riffBytes ++ [4, 0, 0, 0] ++ Webp.webpBytes) {}).getD []).drop 4) =
      ((Webp.embedWebpMetadata
        (Webp.riffBytes ++ [4, 0, 0, 0] ++ Webp.webpBytes) {}).getD []).length - 8 ∧
    Webp.xmpChunkBytes {} <:+
      ((Webp.embedWebpMetadata (Webp.riffBytes ++ [4, 0, 0, 0] ++ Webp.webpBytes) {}).getD [])) :=
  ⟨rfl, by decide,
    webp_size_field (Webp.riffBytes ++ [4, 0, 0, 0] ++ Webp.webpBytes) {}
      ((Webp.embedWebpMetadata (Webp.riffBytes ++ [4, 0, 0, 0] ++ Webp.webpBytes) {}).getD [])
      rfl (by decide)⟩

theorem createIFDEntry_getD0 (tag ty c vo : Nat) :
    (Jpeg.createIFDEntry tag ty c vo).getD 0 0 = tag % 256 := rfl

theorem createIFDEntry_getD1 (tag ty c vo : Nat) :
    (Jpeg.createIFDEntry tag ty c vo).getD 1 0 = tag / 256 % 256 := rfl

theorem createIFDEntry_append_drop12 (tag ty c vo : Nat) (z : List Nat) :
    (Jpeg.createIFDEntry tag ty c vo ++ z).drop 12 = z := by
  rw [show (12 : Nat) = (Jpeg.createIFDEntry tag ty c vo).length from
    (createIFDEntry_length tag ty c vo).symm, List.drop_left]

/-- Reading tags back from the serialized entry area of `exifLayout`
recovers each entry's tag modulo 2^16, regardless of the data offset
and of whatever bytes follow the entry area. -/
theorem tagsOfIfdBytes_layout (es : List (Nat × Nat × List Nat)) :
    ∀ (off : Nat) (tail : List Nat),
      tagsOfIfdBytes es.length
          ((((Jpeg.exifLayout es off).map Prod.fst).flatten) ++ tail) =
        es.map (fun e => e.1 % 65536) := by
  induction es with
  | nil => intro off tail; rfl
  | cons e rest ih =>
    intro off tail
    obtain ⟨tag, ty, d⟩ := e
    simp only [Jpeg.exifLayout, List.length_cons, List.map_cons]
    by_cases hd : d.length ≤ 4
    · rw [if_pos hd]
      simp only [List.map_cons, List.flatten_cons, List.append_assoc]
      simp only [tagsOfIfdBytes]
      rw [getD_append_left (by rw [createIFDEntry_length]; omega),
        getD_append_left (by rw [createIFDEntry_length]; omega),
        createIFDEntry_getD0, createIFDEntry_getD1,
        createIFDEntry_append_drop12, ih off tail]
      rw [show tag % 256 + tag / 256 % 256 * 256 = tag % 65536 from by omega]
    · rw [if_neg hd]
      simp only [List.map_cons, List.flatten_cons, List.append_assoc]
      simp only [tagsOfIfdBytes]
      rw [getD_append_left (by rw [createIFDEntry_length]; omega),
        getD_append_left (by rw [createIFDEntry_length]; omega),
        createIFDEntry_getD0, createIFDEntry_getD1,
        createIFDEntry_append_drop12, ih (off + d.length + d.length % 2) tail]
      rw [show tag % 256 + tag / 256 % 256 * 256 = tag % 65536 from by omega]

/-- Reading the built EXIF APP1 segment back from its serialized bytes
yields exactly the tags of the sorted entry list, modulo 2^16. -/
theorem exifTagsOf_segment (m : Jpeg.ExifMeta)
    (hne : (!jsTruthy m.title && !jsTruthy m.description && m.keywords.isEmpty) = false)
    (hlen : (Jpeg.exifSorted m).length < 65536) :
    exifTagsOf (Jpeg.createEXIFSegment m) =
      (Jpeg.exifSorted m).map (fun e => e.1 % 65536) := by
  have hseg : Jpeg.createEXIFSegment m =
      ([0xFF, 0xE1,
          (2 + Jpeg.exifIdent.length + (Jpeg.exifTiffData m).length) / 256 % 256,
          (2 + Jpeg.exifIdent.length + (Jpeg.exifTiffData m).length) % 256] ++
        Jpeg.exifIdent) ++ Jpeg.exifTiffData m := by
    rw [Jpeg.createEXIFSegment, if_neg (by rw [hne]; exact Bool.false_ne_true)]
  have htiff : Jpeg.exifTiffData m =
      ([0x49, 0x49, 0x2A, 0x00, 0x08, 0x00, 0x00, 0x00] ++
        [(Jpeg.exifSorted m).length % 256, (Jpeg.exifSorted m).length / 256 % 256]) ++
      (((((Jpeg.exifLayout (Jpeg.exifSorted m)
            (8 + (2 + (Jpeg.exifSorted m).length * 12 + 4))).map Prod.fst).flatten) ++
        [0, 0, 0, 0]) ++
        (((Jpeg.exifLayout (Jpeg.exifSorted m)
            (8 + (2 + (Jpeg.exifSorted m).length * 12 + 4))).map Prod.snd).flatten)) := rfl
  have hpre : ([0xFF, 0xE1,
      (2 + Jpeg.exifIdent.length + (Jpeg.exifTiffData m).length) / 256 % 256,
      (2 + Jpeg.exifIdent.length + (Jpeg.exifTiffData m).length) % 256] ++
    Jpeg.exifIdent).length = 10 := rfl
  have hcnt : ([0x49, 0x49, 0x2A, 0x00, 0x08, 0x00, 0x00, 0x00] ++
      [(Jpeg.exifSorted m).length % 256, (Jpeg.exifSorted m).length / 256 % 256]).length
      = 10 := rfl
  unfold exifTagsOf
  rw [hseg]
  rw [show (18 : Nat) = ([0xFF, 0xE1,
        (2 + Jpeg.exifIdent.length + (Jpeg.exifTiffData m).length) / 256 % 256,
        (2 + Jpeg.exifIdent.length + (Jpeg.exifTiffData m).length) % 256] ++
      Jpeg.exifIdent).length + 8 from by rw [hpre]]
  rw [show (19 : Nat) = ([0xFF, 0xE1,
        (2 + Jpeg.exifIdent.length + (Jpeg.exifTiffData m).length) / 256 % 256,
        (2 + Jpeg.exifIdent.length + (Jpeg.exifTiffData m).length) % 256] ++
      Jpeg.exifIdent).length + 9 from by rw [hpre]]
  rw [show (20 : Nat) = ([0xFF, 0xE1,
        (2 + Jpeg.exifIdent.length + (Jpeg.exifTiffData m).length) / 256 % 256,
        (2 + Jpeg.exifIdent.length + (Jpeg.exifTiffData m).length) % 256] ++
      Jpeg.exifIdent).length + 10 from by rw [hpre]]
  rw [getD_append_at, getD_append_at, List.drop_append]
  rw [htiff]
  have hg8 : ([0x49, 0x49, 0x2A, 0x00, 0x08, 0x00, 0x00, 0x00] ++
      [(Jpeg.exifSorted m).length % 256,
        (Jpeg.exifSorted m).length / 256 % 256]).getD 8 0 =
      (Jpeg.exifSorted m).length % 256 := rfl
  have hg9 : ([0x49, 0x49, 0x2A, 0x00, 0x08, 0x00, 0x00, 0x00] ++
      [(Jpeg.exifSorted m).length % 256,
        (Jpeg.exifSorted m).length / 256 % 256]).getD 9 0 =
      (Jpeg.exifSorted m).length / 256 % 256 := rfl
  rw [getD_append_left (by rw [hcnt]; omega)]
  rw [hg8]
  rw [getD_append_left (by rw [hcnt]; omega)]
  rw [hg9]
  rw [show (10 : Nat) = ([0x49, 0x49, 0x2A, 0x00, 0x08, 0x00, 0x00, 0x00] ++
      [(Jpeg.exifSorted m).length % 256,
        (Jpeg.exifSorted m).length / 256 % 256]).length from hcnt.symm,
    List.drop_left]
  rw [show (Jpeg.exifSorted m).length % 256 +
      (Jpeg.exifSorted m).length / 256 % 256 * 256 = (Jpeg.exifSorted m).length from
      by omega]
  rw [List.append_assoc]
  exact tagsOfIfdBytes_layout (Jpeg.exifSorted m) _ _

/-- C6: whenever at least one of title, description or keywords is
present, the IFD entries of the built EXIF APP1 segment — read back
from its serialized bytes — are in strictly ascending tag order. -/
theorem exif_tags_strictly_ascending (m : Jpeg.ExifMeta)
    (h : (jsTruthy m.title || jsTruthy m.description || !m.keywords.isEmpty) = true) :
    List.Pairwise (fun a b => a < b) (exifTagsOf (Jpeg.createEXIFSegment m)) := by
  have hne : (!jsTruthy m.title && !jsTruthy m.description && m.keywords.isEmpty)
      = false := by
    cases ht : jsTruthy m.title <;> cases hd : jsTruthy m.description <;>
      cases hk : m.keywords.isEmpty <;> simp_all
  have hsub : List.Sublist ((Jpeg.exifEntries m).map (fun e => e.1))
      ([270, 40091, 40092, 40094, 40095] : List Nat) := by
    unfold Jpeg.exifEntries
    cases hdt : (jsTruthy m.description || jsTruthy m.title) <;>
      cases ht : jsTruthy m.title <;>
      cases hke : m.keywords.isEmpty <;>
      simp [hdt, ht, hke]
  have hperm : List.Perm (Jpeg.exifSorted m) (Jpeg.exifEntries m) :=
    List.mergeSort_perm (Jpeg.exifEntries m) _
  have hlen : (Jpeg.exifSorted m).length < 65536 := by
    have h5 := hsub.length_le
    rw [List.length_map] at h5
    rw [hperm.length_eq]
    simp at h5
    omega
  have hsorted : List.Pairwise
      (fun a b : Nat × Nat × List Nat => a.1 ≤ b.1) (Jpeg.exifSorted m) := by
    have hs := @List.sorted_mergeSort (Nat × Nat × List Nat)
      (fun a b => a.1 ≤ b.1)
      (fun a b c hab hbc => by
        simp only [decide_eq_true_eq] at hab hbc ⊢
        omega)
      (fun a b => by
        simp only [Bool.or_eq_true, decide_eq_true_eq]
        omega)
      (Jpeg.exifEntries m)
    exact hs.imp (fun hab => of_decide_eq_true hab)
  have hts_le : List.Pairwise (fun a b : Nat => a ≤ b)
      ((Jpeg.exifSorted m).map (fun e => e.1)) :=
    List.Pairwise.map (fun e : Nat × Nat × List Nat => e.1) (fun a b hab => hab) hsorted
  have hnd : List.Pairwise (fun a b : Nat => a ≠ b)
      ((Jpeg.exifSorted m).map (fun e => e.1)) := by
    have h5 : ([270, 40091, 40092, 40094, 40095] : List Nat).Nodup := by decide
    have hnd0 : ((Jpeg.exifEntries m).map (fun e => e.1)).Nodup := hsub.nodup h5
    exact ((hperm.map (fun e => e.1)).nodup_iff).mpr hnd0
  have hlt : List.Pairwise (fun a b : Nat => a < b)
      ((Jpeg.exifSorted m).map (fun e => e.1)) :=
    (hts_le.and hnd).imp (fun hab => lt_of_le_of_ne hab.1 hab.2)
  have hbound : ∀ e ∈ Jpeg.exifSorted m, e.1 < 65536 := by
    intro e he
    have hm : e.1 ∈ (Jpeg.exifEntries m).map (fun e => e.1) :=
      List.mem_map_of_mem _ (hperm.mem_iff.mp he)
    have hmem := hsub.subset hm
    have hall : ∀ x ∈ ([270, 40091, 40092, 40094, 40095] : List Nat), x < 65536 := by
      decide
    exact hall _ hmem
  have hmap : (Jpeg.exifSorted m).map (fun e => e.1 % 65536) =
      (Jpeg.exifSorted m).map (fun e => e.1) :=
    List.map_congr_left (fun e he => Nat.mod_eq_of_lt (hbound e he))
  rw [exifTagsOf_segment m hne hlen, hmap]
  exact hlt

theorem exif_tags_strictly_ascending_witness :
    (jsTruthy (some (u16 "T") : Option (List Nat)) || jsTruthy (none : Option (List Nat)) ||
      !([] : List (List Nat)).isEmpty) = true ∧
    List.Pairwise (fun a b => a < b)
      (exifTagsOf (Jpeg.createEXIFSegment { title := some (u16 "T") })) :=
  ⟨by decide, exif_tags_strictly_ascending { title := some (u16 "T") } (by decide)⟩

theorem getD_drop (data : List Nat) (pos i : Nat) :
    data.getD (pos + i) 0 = (data.drop pos).getD i 0 := by
  rw [getD_eq_getElem?_zero, getD_eq_getElem?_zero, List.getElem?_drop]

/-- Out of fuel or not: at a stopping remainder the scan returns the
current position. -/
theorem jpegInsertPosAux_stop (data : List Nat) (fuel pos : Nat)
    (h : JpegStops (data.drop pos)) :
    Jpeg.jpegInsertPosAux data fuel pos = pos := by
  cases fuel with
  | zero => rfl
  | succ f =>
    have hlen : (data.drop pos).length = data.length - pos := List.length_drop _ _
    simp only [Jpeg.jpegInsertPosAux]
    by_cases hp : pos < data.length - 1
    · rw [if_pos hp]
      have h0 : data.getD pos 0 = (data.drop pos).getD 0 0 := by
        have hz := getD_drop data pos 0
        rwa [Nat.add_zero] at hz
      have h1 : data.getD (pos + 1) 0 = (data.drop pos).getD 1 0 := getD_drop data pos 1
      rcases h with hs | hs | hs
      · exfalso; omega
      · rw [if_pos (by rw [h0]; exact hs)]
      · by_cases hff : data.getD pos 0 ≠ 0xFF
        · rw [if_pos hff]
        · rw [if_neg hff,
            if_neg (by
              rw [h1]
              exact not_or.mpr ⟨hs.1, not_or.mpr ⟨hs.2.1, hs.2.2⟩⟩)]
    · rw [if_neg hp]

/-- One scan step over a skippable segment advances the position by
that segment's length. -/
theorem jpegInsertPosAux_step (data s z : List Nat) (fuel pos : Nat)
    (hs : JpegSkipSeg s) (hdrop : data.drop pos = s ++ z) :
    Jpeg.jpegInsertPosAux data (fuel + 1) pos =
      Jpeg.jpegInsertPosAux data fuel (pos + s.length) := by
  obtain ⟨h4, hff, hmk, hlen⟩ := hs
  have hdl : (data.drop pos).length = data.length - pos := List.length_drop _ _
  rw [hdrop, List.length_append] at hdl
  have hg : ∀ i, i < s.length → data.getD (pos + i) 0 = s.getD i 0 := by
    intro i hi
    rw [getD_drop data pos i, hdrop, getD_append_left hi]
  have h0 : data.getD pos 0 = 0xFF := by
    have hz := hg 0 (by omega)
    rw [Nat.add_zero] at hz
    rw [hz, hff]
  have h1 : data.getD (pos + 1) 0 = s.getD 1 0 := hg 1 (by omega)
  have h2 : data.getD (pos + 2) 0 = s.getD 2 0 := hg 2 (by omega)
  have h3 : data.getD (pos + 3) 0 = s.getD 3 0 := hg 3 (by omega)
  simp only [Jpeg.jpegInsertPosAux]
  rw [if_pos (by omega)]
  rw [if_neg (by rw [h0]; simp)]
  rw [if_pos (by rw [h1]; exact hmk)]
  rw [h2, h3]
  congr 1
  omega

/-- Scanning a run of skippable segments followed by a stopping
remainder lands exactly past the run. -/
theorem jpegInsertPosAux_run (data rest : List Nat) (hstop : JpegStops rest) :
    ∀ (segs : List (List Nat)) (fuel pos : Nat),
      (∀ s ∈ segs, JpegSkipSeg s) →
      data.drop pos = segs.flatten ++ rest →
      segs.length < fuel →
      Jpeg.jpegInsertPosAux data fuel pos = pos + segs.flatten.length := by
  intro segs
  induction segs with
  | nil =>
    intro fuel pos hseg hdrop hfuel
    simp only [List.flatten_nil, List.nil_append] at hdrop
    simp only [List.flatten_nil, List.length_nil, Nat.add_zero]
    exact jpegInsertPosAux_stop data fuel pos (by rw [hdrop]; exact hstop)
  | cons s tl ih =>
    intro fuel pos hseg hdrop hfuel
    cases fuel with
    | zero => exact absurd hfuel (by omega)
    | succ f =>
      have hs : JpegSkipSeg s := hseg s (List.mem_cons_self _ _)
      have hdd : (data.drop pos).drop s.length = data.drop (pos + s.length) := by
        rw [List.drop_drop, Nat.add_comm]
      have hdrop2 : data.drop (pos + s.length) = tl.flatten ++ rest := by
        rw [← hdd, hdrop, List.flatten_cons, List.append_assoc, List.drop_left]
      rw [jpegInsertPosAux_step data s (tl.flatten ++ rest) f pos hs
        (by rw [hdrop, List.flatten_cons, List.append_assoc])]
      rw [ih f (pos + s.length) (fun x hx => hseg x (List.mem_cons_of_mem _ hx)) hdrop2
        (by simp only [List.length_cons] at hfuel; omega)]
      simp only [List.flatten_cons, List.length_append]
      omega

theorem flatten_length_ge (segs : List (List Nat)) (h : ∀ s ∈ segs, 4 ≤ s.length) :
    segs.length ≤ segs.flatten.length := by
  induction segs with
  | nil => simp
  | cons s tl ih =>
    simp only [List.flatten_cons, List.length_append, List.length_cons]
    have h4 := h s (List.mem_cons_self _ _)
    have htl := ih (fun x hx => h x (List.mem_cons_of_mem _ hx))
    omega

/-- C7 amended: for a JPEG that is SOI, then any run of APP1/APP13/APP0
segments, then a stopping remainder, the splice emits SOI, the new
EXIF, XMP and APP13 segments, then the remainder verbatim — the whole
leading run, **including APP0 segments**, is dropped from the output. -/
theorem jpeg_splice_drops_leading_apps (segs : List (List Nat))
    (rest iptc exif xmp : List Nat)
    (hseg : ∀ s ∈ segs, JpegSkipSeg s) (hstop : JpegStops rest) :
    Jpeg.embedMetadataInJPEG ([0xFF, 0xD8] ++ segs.flatten ++ rest) iptc exif xmp =
      [0xFF, 0xD8] ++ exif ++ xmp ++ Jpeg.app13SegmentOf iptc ++ rest := by
  have hins : Jpeg.jpegInsertPos ([0xFF, 0xD8] ++ segs.flatten ++ rest) 2 =
      2 + segs.flatten.length := by
    unfold Jpeg.jpegInsertPos
    have hdrop2 : ([0xFF, 0xD8] ++ segs.flatten ++ rest).drop 2 = segs.flatten ++ rest := by
      rw [List.append_assoc]
      rfl
    refine jpegInsertPosAux_run _ rest hstop segs _ 2 hseg hdrop2 ?_
    have hge := flatten_length_ge segs (fun s hsm => (hseg s hsm).1)
    simp only [List.length_append, List.length_cons, List.length_nil]
    omega
  unfold Jpeg.embedMetadataInJPEG
  rw [hins]
  rw [show 2 + segs.flatten.length = ([0xFF, 0xD8] ++ segs.flatten).length from by
    simp [List.length_append]
    omega, List.drop_left]

/-- C7 counterexample: a JPEG of SOI, one APP0 (JFIF) segment and an
SOS marker.  The scan steps over the APP0 segment and the splice drops
it: the APP0 bytes appear nowhere in the output. -/
theorem jpeg_app0_dropped_counterexample :
    Jpeg.jpegInsertPos [0xFF, 0xD8, 0xFF, 0xE0, 0, 4, 74, 70, 0xFF, 0xDA, 0, 2] 2 = 8 ∧
    Jpeg.embedMetadataInJPEG [0xFF, 0xD8, 0xFF, 0xE0, 0, 4, 74, 70, 0xFF, 0xDA, 0, 2]
      [] [] [] =
      [0xFF, 0xD8] ++ Jpeg.app13SegmentOf [] ++ [0xFF, 0xDA, 0, 2] ∧
    ¬ List.IsInfix [0xFF, 0xE0, 0, 4, 74, 70]
      (Jpeg.embedMetadataInJPEG [0xFF, 0xD8, 0xFF, 0xE0, 0, 4, 74, 70, 0xFF, 0xDA, 0, 2]
        [] [] []) := by
  refine ⟨rfl, by decide, by decide⟩

theorem jpeg_splice_drops_leading_apps_witness :
    (∀ s ∈ ([[0xFF, 0xE0, 0, 4, 74, 70]] : List (List Nat)), JpegSkipSeg s) ∧
    JpegStops [0xFF, 0xDA, 0, 2] ∧
    Jpeg.embedMetadataInJPEG
        ([0xFF, 0xD8] ++ ([[0xFF, 0xE0, 0, 4, 74, 70]] : List (List Nat)).flatten ++
          [0xFF, 0xDA, 0, 2]) [] [] [] =
      [0xFF, 0xD8] ++ [] ++ [] ++ Jpeg.app13SegmentOf [] ++ [0xFF, 0xDA, 0, 2] :=
  ⟨by decide, by decide,
    jpeg_splice_drops_leading_apps [[0xFF, 0xE0, 0, 4, 74, 70]] [0xFF, 0xDA, 0, 2] [] [] []
      (by decide) (by decide)⟩

/-- At a stopping remainder the PNG rescan keeps nothing. -/
theorem stripAux_stop (data : List Nat) (fuel : Nat) (h : PngStripStops data) :
    Png.stripAux fuel data = [] := by
  cases fuel with
  | zero => rfl
  | succ f =>
    simp only [Png.stripAux]
    rcases h with hs | hs
    · rw [if_neg (by omega)]
    · by_cases h8 : 8 ≤ data.length
      · rw [if_pos h8, if_neg (by omega)]
      · rw [if_neg h8]

/-- One PNG rescan step over a well-formed chunk keeps or drops it
whole and recurses on the rest. -/
theorem stripAux_step (c z : List Nat) (fuel : Nat) (hc : PngChunkWF c) :
    Png.stripAux (fuel + 1) (c ++ z) =
      (if (c.drop 4).take 4 = Png.tEXtBytes ∨ (c.drop 4).take 4 = Png.iTXtBytes ∨
          (c.drop 4).take 4 = Png.zTXtBytes then []
       else c) ++ Png.stripAux fuel z := by
  have hlen : c.length = 12 + readBE32 c := hc
  simp only [Png.stripAux]
  rw [if_pos (by rw [List.length_append]; omega)]
  rw [readBE32_append _ (by omega)]
  rw [if_pos (by rw [List.length_append]; omega)]
  have hct : 4 + 4 + readBE32 c + 4 = c.length := by omega
  rw [hct, List.take_left, List.drop_left]
  have htype : ((c ++ z).drop 4).take 4 = (c.drop 4).take 4 := by
    rw [drop_append_left _ (by omega), take_append_left _ (by rw [List.length_drop]; omega)]
  rw [htype]

/-- The PNG rescan of a well-formed chunk run followed by a stopping
remainder returns exactly the non-text chunks; the remainder is
discarded. -/
theorem stripAux_run (rem : List Nat) (hstop : PngStripStops rem) :
    ∀ (cs : List (List Nat)) (fuel : Nat),
      (∀ c ∈ cs, PngChunkWF c) →
      cs.length ≤ fuel →
      Png.stripAux fuel (cs.flatten ++ rem) =
        (cs.filter (fun c => !decide ((c.drop 4).take 4 = Png.tEXtBytes ∨
          (c.drop 4).take 4 = Png.iTXtBytes ∨
          (c.drop 4).take 4 = Png.zTXtBytes))).flatten := by
  intro cs
  induction cs with
  | nil =>
    intro fuel h hf
    simp only [List.flatten_nil, List.nil_append, List.filter_nil]
    exact stripAux_stop rem fuel hstop
  | cons c tl ih =>
    intro fuel h hf
    cases fuel with
    | zero => exact absurd hf (by simp only [List.length_cons]; omega)
    | succ f =>
      rw [show (c :: tl).flatten ++ rem = c ++ (tl.flatten ++ rem) from by
        rw [List.flatten_cons, List.append_assoc]]
      rw [stripAux_step c _ f (h c (List.mem_cons_self _ _))]
      rw [ih f (fun x hx => h x (List.mem_cons_of_mem _ hx))
        (by simp only [List.length_cons] at hf; omega)]
      by_cases ht : (c.drop 4).take 4 = Png.tEXtBytes ∨
          (c.drop 4).take 4 = Png.iTXtBytes ∨ (c.drop 4).take 4 = Png.zTXtBytes
      · rw [if_pos ht, List.filter_cons_of_neg (by simp [ht]), List.nil_append]
      · rw [if_neg ht, List.filter_cons_of_pos (by simp [ht]), List.flatten_cons]

/-- At a stopping remainder the WebP rescan collects nothing. -/
theorem scanChunksAux_stop (data : List Nat) (fuel : Nat) (h : WebpScanStops data) :
    Webp.scanChunksAux fuel data = [] := by
  cases fuel with
  | zero => rfl
  | succ f =>
    simp only [Webp.scanChunksAux]
    rcases h with hs | hs
    · rw [if_neg (by omega)]
    · by_cases h8 : 8 ≤ data.length
      · rw [if_pos h8, if_neg (by omega)]
      · rw [if_neg h8]

/-- One WebP rescan step over a well-formed chunk keeps or drops it
whole and recurses on the rest. -/
theorem scanChunksAux_step (c z : List Nat) (fuel : Nat) (hc : WebpChunkWF c) :
    Webp.scanChunksAux (fuel + 1) (c ++ z) =
      (if c.take 4 = Webp.xmpFourCC then [] else [c]) ++ Webp.scanChunksAux fuel z := by
  have hlen : c.length = 8 + readU32LE (c.drop 4) +
      (if readU32LE (c.drop 4) % 2 = 1 then 1 else 0) := hc
  have h8 : 8 ≤ c.length := by
    rw [hlen]; omega
  simp only [Webp.scanChunksAux]
  rw [if_pos (by rw [List.length_append]; omega)]
  rw [drop_append_left _ (by omega), readU32LE_append _ (by rw [List.length_drop]; omega)]
  rw [if_pos (by rw [List.length_append]; omega)]
  have hct : 8 + readU32LE (c.drop 4) +
      (if readU32LE (c.drop 4) % 2 = 1 then 1 else 0) = c.length := hlen.symm
  rw [hct, List.take_left, List.drop_left]
  rw [take_append_left _ (by omega)]

/-- The WebP rescan of a well-formed chunk run followed by a stopping
remainder returns exactly the non-XMP chunks; the remainder is
discarded. -/
theorem scanChunksAux_run (rem : List Nat) (hstop : WebpScanStops rem) :
    ∀ (cs : List (List Nat)) (fuel : Nat),
      (∀ c ∈ cs, WebpChunkWF c) →
      cs.length ≤ fuel →
      Webp.scanChunksAux fuel (cs.flatten ++ rem) =
        cs.filter (fun c => !decide (c.take 4 = Webp.xmpFourCC)) := by
  intro cs
  induction cs with
  | nil =>
    intro fuel h hf
    simp only [List.flatten_nil, List.nil_append, List.filter_nil]
    exact scanChunksAux_stop rem fuel hstop
  | cons c tl ih =>
    intro fuel h hf
    cases fuel with
    | zero => exact absurd hf (by simp only [List.length_cons]; omega)
    | succ f =>
      rw [show (c :: tl).flatten ++ rem = c ++ (tl.flatten ++ rem) from by
        rw [List.flatten_cons, List.append_assoc]]
      rw [scanChunksAux_step c _ f (h c (List.mem_cons_self _ _))]
      rw [ih f (fun x hx => h x (List.mem_cons_of_mem _ hx))
        (by simp only [List.length_cons] at hf; omega)]
      by_cases ht : c.take 4 = Webp.xmpFourCC
      · rw [if_pos ht, List.filter_cons_of_neg (by simp [ht]), List.nil_append]
      · rw [if_neg ht, List.filter_cons_of_pos (by simp [ht])]
        rfl

/-- C2 amended: when the PNG or WebP rescan meets a chunk whose
declared length runs past the buffer end (or a sub-8-byte tail),
scanning stops and the unscanned remainder is **discarded**: the
rescan output is exactly the well-formed chunks scanned before the
stop, filtered of text/XMP chunks — the remainder contributes no
bytes. -/
theorem truncated_remainder_discarded (pcs : List (List Nat)) (prem : List Nat)
    (wcs : List (List Nat)) (wrem : List Nat)
    (hpc : ∀ c ∈ pcs, PngChunkWF c) (hps : PngStripStops prem)
    (hwc : ∀ c ∈ wcs, WebpChunkWF c) (hws : WebpScanStops wrem) :
    Png.stripExistingTextChunks (pcs.flatten ++ prem) =
      (pcs.filter (fun c => !decide ((c.drop 4).take 4 = Png.tEXtBytes ∨
        (c.drop 4).take 4 = Png.iTXtBytes ∨
        (c.drop 4).take 4 = Png.zTXtBytes))).flatten ∧
    Webp.scanChunks (wcs.flatten ++ wrem) =
      wcs.filter (fun c => !decide (c.take 4 = Webp.xmpFourCC)) := by
  constructor
  · unfold Png.stripExistingTextChunks
    refine stripAux_run prem hps pcs _ hpc ?_
    have hge := flatten_length_ge pcs (fun c hc => by
      have := hpc c hc
      unfold PngChunkWF at this
      omega)
    rw [List.length_append]
    omega
  · unfold Webp.scanChunks
    refine scanChunksAux_run wrem hws wcs _ hwc ?_
    have hge := flatten_length_ge wcs (fun c hc => by
      have := hwc c hc
      unfold WebpChunkWF at this
      omega)
    rw [List.length_append]
    omega

set_option maxRecDepth 40000 in
theorem truncated_remainder_discarded_witness :
    (∀ c ∈ ([[0, 0, 0, 1, 116, 69, 88, 116, 9, 1, 1, 1, 1],
      [0, 0, 0, 1, 73, 68, 65, 84, 7, 9, 9, 9, 9]] : List (List Nat)), PngChunkWF c) ∧
    PngStripStops [0, 0, 0, 100, 73, 68, 65, 84, 1, 2, 3] ∧
    (∀ c ∈ ([[88, 77, 80, 32, 2, 0, 0, 0, 5, 6],
      [86, 80, 56, 32, 1, 0, 0, 0, 9, 0]] : List (List Nat)), WebpChunkWF c) ∧
    WebpScanStops [65, 66, 67, 68, 255, 255, 255, 255, 1] ∧
    (Png.stripExistingTextChunks
        (([[0, 0, 0, 1, 116, 69, 88, 116, 9, 1, 1, 1, 1],
          [0, 0, 0, 1, 73, 68, 65, 84, 7, 9, 9, 9, 9]] : List (List Nat)).flatten ++
          [0, 0, 0, 100, 73, 68, 65, 84, 1, 2, 3]) =
      (([[0, 0, 0, 1, 116, 69, 88, 116, 9, 1, 1, 1, 1],
          [0, 0, 0, 1, 73, 68, 65, 84, 7, 9, 9, 9, 9]] : List (List Nat)).filter
        (fun c => !decide ((c.drop 4).take 4 = Png.tEXtBytes ∨
          (c.drop 4).take 4 = Png.iTXtBytes ∨
          (c.drop 4).take 4 = Png.zTXtBytes))).flatten ∧
    Webp.scanChunks
        (([[88, 77, 80, 32, 2, 0, 0, 0, 5, 6],
          [86, 80, 56, 32, 1, 0, 0, 0, 9, 0]] : List (List Nat)).flatten ++
          [65, 66, 67, 68, 255, 255, 255, 255, 1]) =
      ([[88, 77, 80, 32, 2, 0, 0, 0, 5, 6],
        [86, 80, 56, 32, 1, 0, 0, 0, 9, 0]] : List (List Nat)).filter
        (fun c => !decide (c.take 4 = Webp.xmpFourCC))) :=
  ⟨by decide, by decide, by decide, by decide,
    truncated_remainder_discarded
      [[0, 0, 0, 1, 116, 69, 88, 116, 9, 1, 1, 1, 1],
        [0, 0, 0, 1, 73, 68, 65, 84, 7, 9, 9, 9, 9]]
      [0, 0, 0, 100, 73, 68, 65, 84, 1, 2, 3]
      [[88, 77, 80, 32, 2, 0, 0, 0, 5, 6], [86, 80, 56, 32, 1, 0, 0, 0, 9, 0]]
      [65, 66, 67, 68, 255, 255, 255, 255, 1]
      (by decide) (by decide) (by decide) (by decide)⟩






set_option maxRecDepth 10000 in
/-- C2 counterexample: a PNG whose post-IHDR remainder declares an
IDAT chunk of 100 data bytes but provides only 3.  The embed succeeds,
but the rescan discards the truncated remainder entirely: the output
is exactly the 20-byte prefix plus the new metadata chunks — the
remainder is not passed through (the output does not end with it). -/
theorem png_truncated_remainder_counterexample :
    Png.stripExistingTextChunks [0, 0, 0, 100, 73, 68, 65, 84, 1, 2, 3] = [] ∧
    Png.embedPngMetadata
        (Png.pngSig ++ [0, 0, 0, 0, 73, 72, 68, 82, 1, 1, 1, 1] ++
          [0, 0, 0, 100, 73, 68, 65, 84, 1, 2, 3]) {} =
      some ((Png.pngSig ++ [0, 0, 0, 0, 73, 72, 68, 82, 1, 1, 1, 1] ++
          [0, 0, 0, 100, 73, 68, 65, 84, 1, 2, 3]).take 20 ++
        (Png.pngMetaChunks {}).flatten ++ []) ∧
    ((Png.embedPngMetadata
        (Png.pngSig ++ [0, 0, 0, 0, 73, 72, 68, 82, 1, 1, 1, 1] ++
          [0, 0, 0, 100, 73, 68, 65, 84, 1, 2, 3]) {}).getD []).drop
      (((Png.embedPngMetadata
        (Png.pngSig ++ [0, 0, 0, 0, 73, 72, 68, 82, 1, 1, 1, 1] ++
          [0, 0, 0, 100, 73, 68, 65, 84, 1, 2, 3]) {}).getD []).length - 11) ≠
      [0, 0, 0, 100, 73, 68, 65, 84, 1, 2, 3] := by
  refine ⟨rfl, rfl, by decide⟩

theorem getD_append_left9 {l₁ l₂ : List Nat} {i : Nat} (h : i < l₁.length) :
    (l₁ ++ l₂).getD i 9 = l₁.getD i 0 := by
  rw [List.getD_eq_getElem?_getD, List.getElem?_append_left h,
    List.getElem?_eq_getElem h, getD_eq_getElem?_zero, List.getElem?_eq_getElem h]
  rfl

/-- At a hard stop the JPEG marker-segment parser returns nothing. -/
theorem jpegMarkerSegsAux_stop (rest : List Nat) (fuel : Nat) (h : JpegHardStop rest) :
    jpegMarkerSegsAux fuel rest = [] := by
  cases fuel with
  | zero => rfl
  | succ f =>
    simp only [jpegMarkerSegsAux]
    rcases rest with _ | ⟨b, t⟩
    · rw [if_neg (by simp [List.getD])]
    · rw [if_neg ?hn]
      case hn =>
        intro hc
        obtain ⟨hFF, hlo, hhi⟩ := hc
        rcases h with h1 | h2 | h3
        · exact h1 (by rw [show (b :: t).getD 0 0 = b from rfl,
            ← show (b :: t).getD 0 9 = b from rfl]; exact hFF)
        · omega
        · omega

/-- One parser step over a well-formed APPn segment yields its marker
and payload and recurses past it. -/
theorem jpegMarkerSegsAux_step (s z : List Nat) (fuel : Nat) (hs : JpegSkipSeg s) :
    jpegMarkerSegsAux (fuel + 1) (s ++ z) =
      (s.getD 1 0, (s.drop 4).take (s.getD 2 0 * 256 + s.getD 3 0 - 2)) ::
        jpegMarkerSegsAux fuel z := by
  obtain ⟨h4, hff, hmk, hlen⟩ := hs
  have e0 : (s ++ z).getD 0 9 = s.getD 0 0 := getD_append_left9 (by omega)
  have e1 : (s ++ z).getD 1 0 = s.getD 1 0 := getD_append_left (by omega)
  have e2 : (s ++ z).getD 2 0 = s.getD 2 0 := getD_append_left (by omega)
  have e3 : (s ++ z).getD 3 0 = s.getD 3 0 := getD_append_left (by omega)
  simp only [jpegMarkerSegsAux]
  rw [e0, e1, e2, e3]
  rw [if_pos ⟨hff, by
    rcases hmk with h | h | h <;> rw [h] <;> exact ⟨by norm_num, by norm_num⟩⟩]
  rw [if_pos ⟨by omega, by rw [List.length_append]; omega⟩]
  rw [drop_append_left _ (by omega)]
  rw [take_append_left _ (by rw [List.length_drop]; omega)]
  rw [show 2 + (s.getD 2 0 * 256 + s.getD 3 0) = s.length from hlen.symm, List.drop_left]

/-- Parsing a run of well-formed APPn segments followed by a hard stop
yields exactly those segments' markers and payloads. -/
theorem jpegMarkerSegsAux_run (rest : List Nat) (hstop : JpegHardStop rest) :
    ∀ (segs : List (List Nat)) (fuel : Nat),
      (∀ s ∈ segs, JpegSkipSeg s) →
      segs.length ≤ fuel →
      jpegMarkerSegsAux fuel (segs.flatten ++ rest) =
        segs.map (fun s => (s.getD 1 0,
          (s.drop 4).take (s.getD 2 0 * 256 + s.getD 3 0 - 2))) := by
  intro segs
  induction segs with
  | nil =>
    intro fuel h hf
    simp only [List.flatten_nil, List.nil_append, List.map_nil]
    exact jpegMarkerSegsAux_stop rest fuel hstop
  | cons s tl ih =>
    intro fuel h hf
    cases fuel with
    | zero => exact absurd hf (by simp only [List.length_cons]; omega)
    | succ f =>
      rw [show (s :: tl).flatten ++ rest = s ++ (tl.flatten ++ rest) from by
        rw [List.flatten_cons, List.append_assoc]]
      rw [jpegMarkerSegsAux_step s _ f (h s (List.mem_cons_self _ _))]
      rw [ih f (fun x hx => h x (List.mem_cons_of_mem _ hx))
        (by simp only [List.length_cons] at hf; omega)]
      rw [List.map_cons]

/-- At a stopping remainder the PNG chunk parser returns nothing. -/
theorem pngChunksOfAux_stop (rem : List Nat) (fuel : Nat) (h : PngStripStops rem) :
    pngChunksOfAux fuel rem = [] := by
  cases fuel with
  | zero => rfl
  | succ f =>
    simp only [pngChunksOfAux]
    rcases h with hs | hs
    · rw [if_neg (by omega)]
    · by_cases h8 : 8 ≤ rem.length
      · rw [if_pos h8, if_neg (by omega)]
      · rw [if_neg h8]

/-- One PNG parser step over a well-formed chunk yields its type and
data and recurses past it. -/
theorem pngChunksOfAux_step (c z : List Nat) (fuel : Nat) (hc : PngChunkWF c) :
    pngChunksOfAux (fuel + 1) (c ++ z) =
      ((c.drop 4).take 4, (c.drop 8).take (readBE32 c)) :: pngChunksOfAux fuel z := by
  have hlen : c.length = 12 + readBE32 c := hc
  simp only [pngChunksOfAux]
  rw [readBE32_append _ (by omega)]
  rw [if_pos (by rw [List.length_append]; omega)]
  rw [if_pos (by rw [List.length_append]; omega)]
  rw [drop_append_left _ (by omega), take_append_left _ (by rw [List.length_drop]; omega)]
  rw [drop_append_left _ (by omega), take_append_left _ (by rw [List.length_drop]; omega)]
  rw [show 4 + 4 + readBE32 c + 4 = c.length from by omega, List.drop_left]

/-- Parsing a run of well-formed chunks followed by a stopping
remainder yields exactly those chunks' types and data. -/
theorem pngChunksOfAux_run (rem : List Nat) (hstop : PngStripStops rem) :
    ∀ (cs : List (List Nat)) (fuel : Nat),
      (∀ c ∈ cs, PngChunkWF c) →
      cs.length ≤ fuel →
      pngChunksOfAux fuel (cs.flatten ++ rem) =
        cs.map (fun c => ((c.drop 4).take 4, (c.drop 8).take (readBE32 c))) := by
  intro cs
  induction cs with
  | nil =>
    intro fuel h hf
    simp only [List.flatten_nil, List.nil_append, List.map_nil]
    exact pngChunksOfAux_stop rem fuel hstop
  | cons c tl ih =>
    intro fuel h hf
    cases fuel with
    | zero => exact absurd hf (by simp only [List.length_cons]; omega)
    | succ f =>
      rw [show (c :: tl).flatten ++ rem = c ++ (tl.flatten ++ rem) from by
        rw [List.flatten_cons, List.append_assoc]]
      rw [pngChunksOfAux_step c _ f (h c (List.mem_cons_self _ _))]
      rw [ih f (fun x hx => h x (List.mem_cons_of_mem _ hx))
        (by simp only [List.length_cons] at hf; omega)]
      rw [List.map_cons]

theorem be32Bytes_length (n : Nat) : (be32Bytes n).length = 4 := rfl

theorem readBE32_be32Bytes (n : Nat) (tail : List Nat) (h : n < 4294967296) :
    readBE32 (be32Bytes n ++ tail) = n := by
  simp [be32Bytes, readBE32, List.getD]
  omega

theorem createITXtChunk_length (kw text : List Nat) :
    (Png.createITXtChunk kw text).length =
      12 + (utf8OfUtf16 kw ++ [0, 0, 0, 0, 0] ++ utf8OfUtf16 text).length := by
  unfold Png.createITXtChunk Png.buildChunk
  simp only [List.length_append, be32Bytes_length]
  have hty : (utf8OfUtf16 (u16 "iTXt")).length = 4 := rfl
  rw [hty]
  omega

theorem createITXtChunk_readBE32 (kw text : List Nat)
    (h : (utf8OfUtf16 kw ++ [0, 0, 0, 0, 0] ++ utf8OfUtf16 text).length < 4294967296) :
    readBE32 (Png.createITXtChunk kw text) =
      (utf8OfUtf16 kw ++ [0, 0, 0, 0, 0] ++ utf8OfUtf16 text).length := by
  unfold Png.createITXtChunk Png.buildChunk
  simp only [List.append_assoc]
  rw [readBE32_be32Bytes _ _ (by simp only [← List.append_assoc]; exact h)]

theorem createITXtChunk_wf (kw text : List Nat)
    (h : (utf8OfUtf16 kw ++ [0, 0, 0, 0, 0] ++ utf8OfUtf16 text).length < 4294967296) :
    PngChunkWF (Png.createITXtChunk kw text) := by
  unfold PngChunkWF
  rw [createITXtChunk_length, createITXtChunk_readBE32 kw text h]

theorem createITXtChunk_type (kw text : List Nat) :
    ((Png.createITXtChunk kw text).drop 4).take 4 = Png.iTXtBytes := rfl

theorem drop8_itxt (kw text : List Nat) :
    (Png.createITXtChunk kw text).drop 8 =
      (utf8OfUtf16 kw ++ [0, 0, 0, 0, 0] ++ utf8OfUtf16 text) ++
        be32Bytes (Png.crc32 (utf8OfUtf16 (u16 "iTXt") ++
          (utf8OfUtf16 kw ++ [0, 0, 0, 0, 0] ++ utf8OfUtf16 text))) := rfl

theorem createITXtChunk_data (kw text : List Nat)
    (h : (utf8OfUtf16 kw ++ [0, 0, 0, 0, 0] ++ utf8OfUtf16 text).length < 4294967296) :
    ((Png.createITXtChunk kw text).drop 8).take (readBE32 (Png.createITXtChunk kw text)) =
      utf8OfUtf16 kw ++ [0, 0, 0, 0, 0] ++ utf8OfUtf16 text := by
  rw [createITXtChunk_readBE32 kw text h, drop8_itxt]
  exact List.take_left _ _

theorem pngKeywordOf_itxt_data (kw text : List Nat) (h : ∀ x ∈ utf8OfUtf16 kw, x ≠ 0) :
    pngKeywordOf (utf8OfUtf16 kw ++ [0, 0, 0, 0, 0] ++ utf8OfUtf16 text) =
      utf8OfUtf16 kw := by
  rw [List.append_assoc]
  rw [show ([0, 0, 0, 0, 0] ++ utf8OfUtf16 text) =
    0 :: ([0, 0, 0, 0] ++ utf8OfUtf16 text) from rfl]
  exact pngKeywordOf_concat _ h

theorem prefix_take {p l : List Nat} {n : Nat} (h : p <+: l) (hn : p.length ≤ n) :
    p <+: l.take n := by
  obtain ⟨t, ht⟩ := h
  subst ht
  rw [List.take_append_eq_append_take, List.take_of_length_le hn]
  exact ⟨t.take (n - p.length), rfl⟩

theorem app13SegmentOf_skip (iptc : List Nat)
    (h : (Jpeg.photoshopHeader ++ iptc).length + 2 < 65536) :
    JpegSkipSeg (Jpeg.app13SegmentOf iptc) ∧
    (Jpeg.app13SegmentOf iptc).getD 1 0 = 0xED ∧
    ¬ (Jpeg.exifIdent <+: (Jpeg.app13SegmentOf iptc).drop 4) := by
  have hseg : Jpeg.app13SegmentOf iptc =
      [0xFF, 0xED, ((Jpeg.photoshopHeader ++ iptc).length + 2) / 256 % 256,
        ((Jpeg.photoshopHeader ++ iptc).length + 2) % 256] ++
      (Jpeg.photoshopHeader ++ iptc) := rfl
  have hlen : (Jpeg.app13SegmentOf iptc).length =
      4 + (Jpeg.photoshopHeader ++ iptc).length := by
    rw [hseg, List.length_append]
    rfl
  have h0 : (Jpeg.app13SegmentOf iptc).getD 0 0 = 0xFF := by
    rw [hseg]
    rw [getD_append_left (by norm_num)]
    rfl
  have h1 : (Jpeg.app13SegmentOf iptc).getD 1 0 = 0xED := by
    rw [hseg]
    rw [getD_append_left (by norm_num)]
    rfl
  have h2 : (Jpeg.app13SegmentOf iptc).getD 2 0 =
      ((Jpeg.photoshopHeader ++ iptc).length + 2) / 256 % 256 := by
    rw [hseg]
    rw [getD_append_left (by norm_num)]
    rfl
  have h3 : (Jpeg.app13SegmentOf iptc).getD 3 0 =
      ((Jpeg.photoshopHeader ++ iptc).length + 2) % 256 := by
    rw [hseg]
    rw [getD_append_left (by norm_num)]
    rfl
  refine ⟨⟨by omega, h0, Or.inr (Or.inl h1), ?_⟩, h1, ?_⟩
  · rw [hlen, h2, h3]
    omega
  · intro hpre
    have hdrop : (Jpeg.app13SegmentOf iptc).drop 4 = Jpeg.photoshopHeader ++ iptc := rfl
    rw [hdrop] at hpre
    obtain ⟨t, ht⟩ := hpre
    have hg := congrArg (fun l => List.getD l 0 0) ht
    simp only at hg
    rw [getD_append_left (by norm_num [Jpeg.exifIdent])] at hg
    rw [getD_append_left (by norm_num [Jpeg.photoshopHeader])] at hg
    have hE : Jpeg.exifIdent.getD 0 0 = 69 := rfl
    have hP : Jpeg.photoshopHeader.getD 0 0 = 80 := rfl
    rw [hE, hP] at hg
    omega

theorem JpegHardStop.stops {rest : List Nat} (h : JpegHardStop rest) : JpegStops rest := by
  rcases h with h | h | h
  · exact Or.inr (Or.inl h)
  · exact Or.inr (Or.inr ⟨by omega, by omega, by omega⟩)
  · exact Or.inr (Or.inr ⟨by omega, by omega, by omega⟩)

/-- The JPEG splice on a leading skippable run: shared core of the
splice-shape results. -/
theorem embedJPEG_shape (segs : List (List Nat)) (rest iptc exif xmp : List Nat)
    (hseg : ∀ s ∈ segs, JpegSkipSeg s) (hstop : JpegStops rest) :
    Jpeg.embedMetadataInJPEG ([0xFF, 0xD8] ++ segs.flatten ++ rest) iptc exif xmp =
      [0xFF, 0xD8] ++ exif ++ xmp ++ Jpeg.app13SegmentOf iptc ++ rest := by
  have hins : Jpeg.jpegInsertPos ([0xFF, 0xD8] ++ segs.flatten ++ rest) 2 =
      2 + segs.flatten.length := by
    unfold Jpeg.jpegInsertPos
    have hdrop2 : ([0xFF, 0xD8] ++ segs.flatten ++ rest).drop 2 = segs.flatten ++ rest := by
      rw [List.append_assoc]
      rfl
    refine jpegInsertPosAux_run _ rest hstop segs _ 2 hseg hdrop2 ?_
    have hge := flatten_length_ge segs (fun s hsm => (hseg s hsm).1)
    simp only [List.length_append, List.length_cons, List.length_nil]
    omega
  unfold Jpeg.embedMetadataInJPEG
  rw [hins]
  rw [show 2 + segs.flatten.length = ([0xFF, 0xD8] ++ segs.flatten).length from by
    simp [List.length_append]
    omega, List.drop_left]

theorem ExifApp1WF.skip {s : List Nat} (h : ExifApp1WF s) : JpegSkipSeg s := by
  obtain ⟨h1, h2, h3, h4, h5⟩ := h
  exact ⟨by omega, h2, Or.inl h3, h4⟩

/-- JPEG double-embed: output shape, idempotence and segment counts,
for a leading skippable run, a hard-stopping remainder and well-formed
built segments. -/
theorem jpeg_double_embed (segs : List (List Nat)) (rest iptc exif xmp : List Nat)
    (hsegs : ∀ s ∈ segs, JpegSkipSeg s) (hrest : JpegHardStop rest)
    (hex : ExifApp1WF exif) (hxm : XmpApp1OK xmp)
    (hiptc : (Jpeg.photoshopHeader ++ iptc).length + 2 < 65536) :
    Jpeg.embedMetadataInJPEG ([0xFF, 0xD8] ++ segs.flatten ++ rest) iptc exif xmp =
      [0xFF, 0xD8] ++ exif ++ xmp ++ Jpeg.app13SegmentOf iptc ++ rest ∧
    Jpeg.embedMetadataInJPEG
        ([0xFF, 0xD8] ++ exif ++ xmp ++ Jpeg.app13SegmentOf iptc ++ rest) iptc exif xmp =
      [0xFF, 0xD8] ++ exif ++ xmp ++ Jpeg.app13SegmentOf iptc ++ rest ∧
    countExifApp1 ([0xFF, 0xD8] ++ exif ++ xmp ++ Jpeg.app13SegmentOf iptc ++ rest) = 1 ∧
    countApp13 ([0xFF, 0xD8] ++ exif ++ xmp ++ Jpeg.app13SegmentOf iptc ++ rest) = 1 := by
  obtain ⟨ha13, ha13m, ha13ne⟩ := app13SegmentOf_skip iptc hiptc
  have hexskip : JpegSkipSeg exif := hex.skip
  have hp1e : (decide (exif.getD 1 0 = 0xE1) &&
      decide (Jpeg.exifIdent <+:
        (exif.drop 4).take (exif.getD 2 0 * 256 + exif.getD 3 0 - 2))) = true := by
    rw [Bool.and_eq_true]
    refine ⟨by rw [decide_eq_true_eq]; exact hex.2.2.1, ?_⟩
    rw [decide_eq_true_eq]
    refine prefix_take hex.2.2.2.2 ?_
    have h10 := hex.1
    have hl := hex.2.2.2.1
    have hid : Jpeg.exifIdent.length = 6 := rfl
    omega
  have hp2e : decide (exif.getD 1 0 = 0xED) = false := by
    rw [decide_eq_false_iff_not, hex.2.2.1]
    omega
  have hp1a : (decide ((Jpeg.app13SegmentOf iptc).getD 1 0 = 0xE1) &&
      decide (Jpeg.exifIdent <+:
        ((Jpeg.app13SegmentOf iptc).drop 4).take
          ((Jpeg.app13SegmentOf iptc).getD 2 0 * 256 +
            (Jpeg.app13SegmentOf iptc).getD 3 0 - 2))) = false := by
    rw [show decide ((Jpeg.app13SegmentOf iptc).getD 1 0 = 0xE1) = false from by
      rw [decide_eq_false_iff_not, ha13m]; omega]
    rw [Bool.false_and]
  have hp2a : decide ((Jpeg.app13SegmentOf iptc).getD 1 0 = 0xED) = true := by
    rw [decide_eq_true_eq]
    exact ha13m
  rcases hxm with hxe | ⟨hxs, hx1, hxne⟩
  · subst hxe
    have hsegs2 : ∀ s ∈ [exif, Jpeg.app13SegmentOf iptc], JpegSkipSeg s := by
      intro s hs
      simp only [List.mem_cons, List.not_mem_nil, or_false] at hs
      rcases hs with rfl | rfl
      · exact hexskip
      · exact ha13
    have hJ : [0xFF, 0xD8] ++ exif ++ [] ++ Jpeg.app13SegmentOf iptc ++ rest =
        [0xFF, 0xD8] ++ ([exif, Jpeg.app13SegmentOf iptc] : List (List Nat)).flatten ++
          rest := by
      simp [List.append_assoc]
    have hdropJ : ([0xFF, 0xD8] ++ exif ++ [] ++ Jpeg.app13SegmentOf iptc ++ rest).drop 2 =
        ([exif, Jpeg.app13SegmentOf iptc] : List (List Nat)).flatten ++ rest := by
      rw [hJ, List.append_assoc]
      rfl
    have hparsed : jpegMarkerSegs
        (([0xFF, 0xD8] ++ exif ++ [] ++ Jpeg.app13SegmentOf iptc ++ rest).drop 2) =
        ([exif, Jpeg.app13SegmentOf iptc] : List (List Nat)).map (fun s => (s.getD 1 0,
          (s.drop 4).take (s.getD 2 0 * 256 + s.getD 3 0 - 2))) := by
      rw [hdropJ]
      unfold jpegMarkerSegs
      refine jpegMarkerSegsAux_run rest hrest _ _ hsegs2 ?_
      have hge := flatten_length_ge _ (fun s hsm => (hsegs2 s hsm).1)
      rw [List.length_append]
      omega
    refine ⟨embedJPEG_shape segs rest iptc exif [] hsegs hrest.stops, ?_, ?_, ?_⟩
    · rw [hJ, embedJPEG_shape _ rest iptc exif [] hsegs2 hrest.stops]
      exact hJ
    · unfold countExifApp1
      rw [hparsed]
      simp only [List.map_cons, List.map_nil, List.countP_cons, List.countP_nil]
      simp only [hp1e, hp1a]
      rfl
    · unfold countApp13
      rw [hparsed]
      simp only [List.map_cons, List.map_nil, List.countP_cons, List.countP_nil]
      simp only [hp2e, hp2a]
      rfl
  · have hxnil : xmp.isEmpty = false := by
      cases xmp with
      | nil => exact absurd hxs.1 (by simp)
      | cons a t => rfl
    have hp1x : (decide (xmp.getD 1 0 = 0xE1) &&
        decide (Jpeg.exifIdent <+:
          (xmp.drop 4).take (xmp.getD 2 0 * 256 + xmp.getD 3 0 - 2))) = false := by
      rw [show decide (Jpeg.exifIdent <+:
          (xmp.drop 4).take (xmp.getD 2 0 * 256 + xmp.getD 3 0 - 2)) = false from
        decide_eq_false (fun hp => hxne (hp.trans (List.take_prefix _ _)))]
      rw [Bool.and_false]
    have hp2x : decide (xmp.getD 1 0 = 0xED) = false := by
      rw [decide_eq_false_iff_not, hx1]
      omega
    have hsegs2 : ∀ s ∈ [exif, xmp, Jpeg.app13SegmentOf iptc], JpegSkipSeg s := by
      intro s hs
      simp only [List.mem_cons, List.not_mem_nil, or_false] at hs
      rcases hs with rfl | rfl | rfl
      · exact hexskip
      · exact hxs
      · exact ha13
    have hJ : [0xFF, 0xD8] ++ exif ++ xmp ++ Jpeg.app13SegmentOf iptc ++ rest =
        [0xFF, 0xD8] ++
          ([exif, xmp, Jpeg.app13SegmentOf iptc] : List (List Nat)).flatten ++ rest := by
      simp [List.append_assoc]
    have hdropJ : ([0xFF, 0xD8] ++ exif ++ xmp ++ Jpeg.app13SegmentOf iptc ++ rest).drop 2 =
        ([exif, xmp, Jpeg.app13SegmentOf iptc] : List (List Nat)).flatten ++ rest := by
      rw [hJ, List.append_assoc]
      rfl
    have hparsed : jpegMarkerSegs
        (([0xFF, 0xD8] ++ exif ++ xmp ++ Jpeg.app13SegmentOf iptc ++ rest).drop 2) =
        ([exif, xmp, Jpeg.app13SegmentOf iptc] : List (List Nat)).map (fun s => (s.getD 1 0,
          (s.drop 4).take (s.getD 2 0 * 256 + s.getD 3 0 - 2))) := by
      rw [hdropJ]
      unfold jpegMarkerSegs
      refine jpegMarkerSegsAux_run rest hrest _ _ hsegs2 ?_
      have hge := flatten_length_ge _ (fun s hsm => (hsegs2 s hsm).1)
      rw [List.length_append]
      omega
    refine ⟨embedJPEG_shape segs rest iptc exif xmp hsegs hrest.stops, ?_, ?_, ?_⟩
    · rw [hJ, embedJPEG_shape _ rest iptc exif xmp hsegs2 hrest.stops]
      exact hJ
    · unfold countExifApp1
      rw [hparsed]
      simp only [List.map_cons, List.map_nil, List.countP_cons, List.countP_nil]
      simp only [hp1e, hp1x, hp1a]
      rfl
    · unfold countApp13
      rw [hparsed]
      simp only [List.map_cons, List.map_nil, List.countP_cons, List.countP_nil]
      simp only [hp2e, hp2x, hp2a]
      rfl

theorem readBE32_be32Bytes_mod (n : Nat) (tail : List Nat) :
    readBE32 (be32Bytes n ++ tail) = n % 4294967296 := by
  simp [be32Bytes, readBE32, List.getD]
  omega

theorem createITXtChunk_dataLen_lt (kw text : List Nat)
    (hwf : PngChunkWF (Png.createITXtChunk kw text)) :
    (utf8OfUtf16 kw ++ [0, 0, 0, 0, 0] ++ utf8OfUtf16 text).length < 4294967296 := by
  have hmod : readBE32 (Png.createITXtChunk kw text) =
      (utf8OfUtf16 kw ++ [0, 0, 0, 0, 0] ++ utf8OfUtf16 text).length % 4294967296 := by
    unfold Png.createITXtChunk Png.buildChunk
    simp only [List.append_assoc]
    rw [readBE32_be32Bytes_mod]
  have hwf2 : (Png.createITXtChunk kw text).length =
      12 + readBE32 (Png.createITXtChunk kw text) := hwf
  rw [createITXtChunk_length, hmod] at hwf2
  omega

/-- The measured `(type, keyword-match)` of a parsed well-formed iTXt
chunk depends only on its keyword. -/
theorem itxt_countPred (kwc x kw : List Nat)
    (hwf : PngChunkWF (Png.createITXtChunk kwc x))
    (hnz : ∀ b ∈ utf8OfUtf16 kwc, b ≠ 0) :
    (decide ((((Png.createITXtChunk kwc x).drop 4).take 4) = Png.iTXtBytes) &&
      decide (pngKeywordOf (((Png.createITXtChunk kwc x).drop 8).take
        (readBE32 (Png.createITXtChunk kwc x))) = kw)) =
      decide (utf8OfUtf16 kwc = kw) := by
  have hlt := createITXtChunk_dataLen_lt kwc x hwf
  rw [createITXtChunk_data kwc x hlt, pngKeywordOf_itxt_data kwc x hnz,
    createITXtChunk_type]
  simp

/-- One PNG embed on a signature+IHDR-prefixed buffer: prefix kept,
metadata chunks inserted, tail rescanned. -/
theorem png_embed_shape (md : EmbedMetadataInput) (ihdr X : List Nat)
    (hihdr : PngChunkWF ihdr) :
    Png.embedPngMetadata (Png.pngSig ++ ihdr ++ X) md =
      some ((Png.pngSig ++ ihdr) ++ (Png.pngMetaChunks md).flatten ++
        Png.stripExistingTextChunks X) := by
  have h12 : ihdr.length = 12 + readBE32 ihdr := hihdr
  have hgrp : Png.pngSig ++ ihdr ++ X = Png.pngSig ++ (ihdr ++ X) := by
    rw [List.append_assoc]
  have htake : (Png.pngSig ++ ihdr ++ X).take 8 = Png.pngSig := by
    rw [hgrp, show (8 : Nat) = Png.pngSig.length from rfl, List.take_left]
  have hne : (Png.pngMetaChunks md).isEmpty = false := by
    unfold Png.pngMetaChunks
    simp
  have key : Png.embedPngMetadata (Png.pngSig ++ ihdr ++ X) md =
      some ((Png.pngSig ++ ihdr ++ X).take
          (8 + 4 + 4 + readBE32 ((Png.pngSig ++ ihdr ++ X).drop 8) + 4) ++
        (Png.pngMetaChunks md).flatten ++
        Png.stripExistingTextChunks ((Png.pngSig ++ ihdr ++ X).drop
          (8 + 4 + 4 + readBE32 ((Png.pngSig ++ ihdr ++ X).drop 8) + 4))) := by
    rw [Png.embedPngMetadata, if_pos htake, if_neg (by simp [hne])]
  have hd8 : (Png.pngSig ++ ihdr ++ X).drop 8 = ihdr ++ X := by
    rw [hgrp, show (8 : Nat) = Png.pngSig.length from rfl, List.drop_left]
  have hread : readBE32 ((Png.pngSig ++ ihdr ++ X).drop 8) = readBE32 ihdr := by
    rw [hd8]
    exact readBE32_append _ (by omega)
  have hpos : 8 + 4 + 4 + readBE32 ((Png.pngSig ++ ihdr ++ X).drop 8) + 4 =
      (Png.pngSig ++ ihdr).length := by
    rw [hread, List.length_append, show Png.pngSig.length = 8 from rfl]
    omega
  have htk : (Png.pngSig ++ ihdr ++ X).take
      (8 + 4 + 4 + readBE32 ((Png.pngSig ++ ihdr ++ X).drop 8) + 4) =
      Png.pngSig ++ ihdr := by
    rw [hpos, List.take_left]
  have hdp : (Png.pngSig ++ ihdr ++ X).drop
      (8 + 4 + 4 + readBE32 ((Png.pngSig ++ ihdr ++ X).drop 8) + 4) = X := by
    rw [hpos, List.drop_left]
  rw [key, htk, hdp]

/-- PNG double-embed: output shape, idempotence and the Title-chunk
count, for a signature + well-formed IHDR prefix, a well-formed chunk
run and a stopping remainder, when the built chunks' length fields do
not overflow 32 bits. -/
theorem png_double_embed (md : EmbedMetadataInput) (ihdr : List Nat)
    (cs : List (List Nat)) (rem : List Nat)
    (hti : jsTruthy md.title = true)
    (hihdr : PngChunkWF ihdr)
    (hihdrT : (ihdr.drop 4).take 4 ≠ Png.iTXtBytes)
    (hcs : ∀ c ∈ cs, PngChunkWF c)
    (hrem : PngStripStops rem)
    (hM : ∀ c ∈ Png.pngMetaChunks md, PngChunkWF c) :
    Png.embedPngMetadata (Png.pngSig ++ ihdr ++ cs.flatten ++ rem) md =
      some (Png.pngSig ++ ihdr ++ (Png.pngMetaChunks md).flatten ++
        (cs.filter (fun c => !decide ((c.drop 4).take 4 = Png.tEXtBytes ∨
          (c.drop 4).take 4 = Png.iTXtBytes ∨
          (c.drop 4).take 4 = Png.zTXtBytes))).flatten) ∧
    Png.embedPngMetadata (Png.pngSig ++ ihdr ++ (Png.pngMetaChunks md).flatten ++
        (cs.filter (fun c => !decide ((c.drop 4).take 4 = Png.tEXtBytes ∨
          (c.drop 4).take 4 = Png.iTXtBytes ∨
          (c.drop 4).take 4 = Png.zTXtBytes))).flatten) md =
      some (Png.pngSig ++ ihdr ++ (Png.pngMetaChunks md).flatten ++
        (cs.filter (fun c => !decide ((c.drop 4).take 4 = Png.tEXtBytes ∨
          (c.drop 4).take 4 = Png.iTXtBytes ∨
          (c.drop 4).take 4 = Png.zTXtBytes))).flatten) ∧
    countITXtKeyword (u16 "Title")
      ((Png.pngSig ++ ihdr ++ (Png.pngMetaChunks md).flatten ++
        (cs.filter (fun c => !decide ((c.drop 4).take 4 = Png.tEXtBytes ∨
          (c.drop 4).take 4 = Png.iTXtBytes ∨
          (c.drop 4).take 4 = Png.zTXtBytes))).flatten).drop 8) = 1 := by
  have hMtype : ∀ c ∈ Png.pngMetaChunks md, (c.drop 4).take 4 = Png.iTXtBytes := by
    intro c hc
    unfold Png.pngMetaChunks at hc
    simp only [List.mem_append, List.mem_ite_nil_right, List.mem_singleton] at hc
    rcases hc with ((⟨_, rfl⟩ | ⟨_, rfl⟩) | ⟨_, rfl⟩) | rfl <;>
      exact createITXtChunk_type _ _
  have hstrip1 : Png.stripExistingTextChunks (cs.flatten ++ rem) =
      (cs.filter (fun c => !decide ((c.drop 4).take 4 = Png.tEXtBytes ∨
        (c.drop 4).take 4 = Png.iTXtBytes ∨
        (c.drop 4).take 4 = Png.zTXtBytes))).flatten := by
    unfold Png.stripExistingTextChunks
    refine stripAux_run rem hrem cs _ hcs ?_
    have hge := flatten_length_ge cs (fun c hc => by
      have := hcs c hc
      unfold PngChunkWF at this
      omega)
    rw [List.length_append]
    omega
  have hkeepwf : ∀ c ∈ cs.filter (fun c => !decide ((c.drop 4).take 4 = Png.tEXtBytes ∨
      (c.drop 4).take 4 = Png.iTXtBytes ∨
      (c.drop 4).take 4 = Png.zTXtBytes)), PngChunkWF c :=
    fun c hc => hcs c (List.mem_of_mem_filter hc)
  have hkeepT : ∀ c ∈ cs.filter (fun c => !decide ((c.drop 4).take 4 = Png.tEXtBytes ∨
      (c.drop 4).take 4 = Png.iTXtBytes ∨
      (c.drop 4).take 4 = Png.zTXtBytes)), (c.drop 4).take 4 ≠ Png.iTXtBytes := by
    intro c hc he
    have hp := List.of_mem_filter hc
    simp [he] at hp
  have hstrip2 : Png.stripExistingTextChunks ((Png.pngMetaChunks md).flatten ++
      (cs.filter (fun c => !decide ((c.drop 4).take 4 = Png.tEXtBytes ∨
        (c.drop 4).take 4 = Png.iTXtBytes ∨
        (c.drop 4).take 4 = Png.zTXtBytes))).flatten) =
      (cs.filter (fun c => !decide ((c.drop 4).take 4 = Png.tEXtBytes ∨
        (c.drop 4).take 4 = Png.iTXtBytes ∨
        (c.drop 4).take 4 = Png.zTXtBytes))).flatten := by
    rw [show (Png.pngMetaChunks md).flatten ++
        (cs.filter (fun c => !decide ((c.drop 4).take 4 = Png.tEXtBytes ∨
          (c.drop 4).take 4 = Png.iTXtBytes ∨
          (c.drop 4).take 4 = Png.zTXtBytes))).flatten =
      (Png.pngMetaChunks md ++
        cs.filter (fun c => !decide ((c.drop 4).take 4 = Png.tEXtBytes ∨
          (c.drop 4).take 4 = Png.iTXtBytes ∨
          (c.drop 4).take 4 = Png.zTXtBytes))).flatten ++ [] from by
      rw [List.flatten_append, List.append_nil]]
    unfold Png.stripExistingTextChunks
    rw [stripAux_run [] (Or.inl (by simp)) _ _ (by
        intro c hc
        rcases List.mem_append.mp hc with h | h
        · exact hM c h
        · exact hkeepwf c h) (by
        have hge := flatten_length_ge (Png.pngMetaChunks md ++
          cs.filter (fun c => !decide ((c.drop 4).take 4 = Png.tEXtBytes ∨
            (c.drop 4).take 4 = Png.iTXtBytes ∨
            (c.drop 4).take 4 = Png.zTXtBytes))) (by
          intro c hc
          rcases List.mem_append.mp hc with h | h
          · have := hM c h
            unfold PngChunkWF at this
            omega
          · have := hkeepwf c h
            unfold PngChunkWF at this
            omega)
        simp only [List.length_append, List.length_nil] at hge ⊢
        omega)]
    rw [List.filter_append]
    rw [List.filter_eq_nil_iff.mpr (by
      intro c hc
      simp [hMtype c hc])]
    rw [List.nil_append]
    have hkeepP : ∀ c ∈ cs.filter (fun c => !decide ((c.drop 4).take 4 = Png.tEXtBytes ∨
        (c.drop 4).take 4 = Png.iTXtBytes ∨ (c.drop 4).take 4 = Png.zTXtBytes)),
        (!decide ((c.drop 4).take 4 = Png.tEXtBytes ∨
          (c.drop 4).take 4 = Png.iTXtBytes ∨
          (c.drop 4).take 4 = Png.zTXtBytes)) = true :=
      fun c hc => (List.mem_filter.mp hc).2
    rw [List.filter_eq_self.mpr hkeepP]
  refine ⟨?_, ?_, ?_⟩
  · rw [show Png.pngSig ++ ihdr ++ cs.flatten ++ rem =
      Png.pngSig ++ ihdr ++ (cs.flatten ++ rem) from by rw [List.append_assoc]]
    rw [png_embed_shape md ihdr _ hihdr, hstrip1]
  · rw [show Png.pngSig ++ ihdr ++ (Png.pngMetaChunks md).flatten ++
        (cs.filter (fun c => !decide ((c.drop 4).take 4 = Png.tEXtBytes ∨
          (c.drop 4).take 4 = Png.iTXtBytes ∨
          (c.drop 4).take 4 = Png.zTXtBytes))).flatten =
      Png.pngSig ++ ihdr ++ ((Png.pngMetaChunks md).flatten ++
        (cs.filter (fun c => !decide ((c.drop 4).take 4 = Png.tEXtBytes ∨
          (c.drop 4).take 4 = Png.iTXtBytes ∨
          (c.drop 4).take 4 = Png.zTXtBytes))).flatten) from by rw [List.append_assoc]]
    rw [png_embed_shape md ihdr _ hihdr, hstrip2]
    rw [List.append_assoc]
  · have hd8 : (Png.pngSig ++ ihdr ++ (Png.pngMetaChunks md).flatten ++
        (cs.filter (fun c => !decide ((c.drop 4).take 4 = Png.tEXtBytes ∨
          (c.drop 4).take 4 = Png.iTXtBytes ∨
          (c.drop 4).take 4 = Png.zTXtBytes))).flatten).drop 8 =
        ihdr ++ ((Png.pngMetaChunks md).flatten ++
          (cs.filter (fun c => !decide ((c.drop 4).take 4 = Png.tEXtBytes ∨
            (c.drop 4).take 4 = Png.iTXtBytes ∨
            (c.drop 4).take 4 = Png.zTXtBytes))).flatten) := by
      simp only [List.append_assoc]
      rw [show (8 : Nat) = Png.pngSig.length from rfl, List.drop_left]
    have hX : ihdr ++ ((Png.pngMetaChunks md).flatten ++
        (cs.filter (fun c => !decide ((c.drop 4).take 4 = Png.tEXtBytes ∨
          (c.drop 4).take 4 = Png.iTXtBytes ∨
          (c.drop 4).take 4 = Png.zTXtBytes))).flatten) =
        (ihdr :: (Png.pngMetaChunks md ++
          cs.filter (fun c => !decide ((c.drop 4).take 4 = Png.tEXtBytes ∨
            (c.drop 4).take 4 = Png.iTXtBytes ∨
            (c.drop 4).take 4 = Png.zTXtBytes)))).flatten ++ [] := by
      rw [List.flatten_cons, List.flatten_append, List.append_nil]
    have hall : ∀ c ∈ ihdr :: (Png.pngMetaChunks md ++
        cs.filter (fun c => !decide ((c.drop 4).take 4 = Png.tEXtBytes ∨
          (c.drop 4).take 4 = Png.iTXtBytes ∨
          (c.drop 4).take 4 = Png.zTXtBytes))), PngChunkWF c := by
      intro c hc
      rcases List.mem_cons.mp hc with rfl | hc2
      · exact hihdr
      rcases List.mem_append.mp hc2 with h | h
      · exact hM c h
      · exact hkeepwf c h
    have hparse : pngChunksOf ((Png.pngSig ++ ihdr ++ (Png.pngMetaChunks md).flatten ++
        (cs.filter (fun c => !decide ((c.drop 4).take 4 = Png.tEXtBytes ∨
          (c.drop 4).take 4 = Png.iTXtBytes ∨
          (c.drop 4).take 4 = Png.zTXtBytes))).flatten).drop 8) =
        (ihdr :: (Png.pngMetaChunks md ++
          cs.filter (fun c => !decide ((c.drop 4).take 4 = Png.tEXtBytes ∨
            (c.drop 4).take 4 = Png.iTXtBytes ∨
            (c.drop 4).take 4 = Png.zTXtBytes)))).map
          (fun c => ((c.drop 4).take 4, (c.drop 8).take (readBE32 c))) := by
      rw [hd8, hX]
      unfold pngChunksOf
      refine pngChunksOfAux_run [] (Or.inl (by simp)) _ _ hall ?_
      have hge := flatten_length_ge _ (fun c hc => by
        have := hall c hc
        unfold PngChunkWF at this
        omega)
      simp only [List.length_append, List.length_nil] at hge ⊢
      omega
    unfold countITXtKeyword
    rw [hparse]
    rw [List.map_cons, List.map_append, List.countP_cons, List.countP_append]
    have hpihdr : (decide ((ihdr.drop 4).take 4 = Png.iTXtBytes) &&
        decide (pngKeywordOf ((ihdr.drop 8).take (readBE32 ihdr)) = u16 "Title")) =
        false := by
      rw [decide_eq_false hihdrT, Bool.false_and]
    have hkeep0 : ((cs.filter (fun c => !decide ((c.drop 4).take 4 = Png.tEXtBytes ∨
        (c.drop 4).take 4 = Png.iTXtBytes ∨
        (c.drop 4).take 4 = Png.zTXtBytes))).map
          (fun c => ((c.drop 4).take 4, (c.drop 8).take (readBE32 c)))).countP
        (fun c => c.1 = Png.iTXtBytes && decide (pngKeywordOf c.2 = u16 "Title")) = 0 := by
      rw [List.countP_eq_zero]
      intro x hx
      obtain ⟨c, hc, rfl⟩ := List.mem_map.mp hx
      intro hp
      simp only [Bool.and_eq_true, decide_eq_true_eq] at hp
      exact hkeepT c hc hp.1
    have hM1 : ((Png.pngMetaChunks md).map
          (fun c => ((c.drop 4).take 4, (c.drop 8).take (readBE32 c)))).countP
        (fun c => c.1 = Png.iTXtBytes && decide (pngKeywordOf c.2 = u16 "Title")) = 1 := by
      have hwfT : PngChunkWF (Png.createITXtChunk (u16 "Title") (getStr md.title)) :=
        hM _ (by
          unfold Png.pngMetaChunks
          rw [if_pos hti]
          exact List.mem_append_left _ (List.mem_append_left _
            (List.mem_append_left _ (List.mem_cons_self _ _))))
      have hwfX : PngChunkWF (Png.createITXtChunk (u16 "XML:com.adobe.xmp")
          (Png.buildXmpPacket md)) :=
        hM _ (by
          unfold Png.pngMetaChunks
          exact List.mem_append_right _ (List.mem_cons_self _ _))
      unfold Png.pngMetaChunks
      rw [if_pos hti]
      rw [List.map_append, List.map_append, List.map_append]
      rw [List.countP_append, List.countP_append, List.countP_append]
      have h1 : (([Png.createITXtChunk (u16 "Title") (getStr md.title)]).map
            (fun c => ((c.drop 4).take 4, (c.drop 8).take (readBE32 c)))).countP
          (fun c => c.1 = Png.iTXtBytes && decide (pngKeywordOf c.2 = u16 "Title")) = 1 := by
        simp only [List.map_cons, List.map_nil, List.countP_cons, List.countP_nil]
        rw [itxt_countPred _ _ _ hwfT (by decide)]
        decide
      have h2 : ((if jsTruthy md.description then
            [Png.createITXtChunk (u16 "Description") (getStr md.description)] else []).map
            (fun c => ((c.drop 4).take 4, (c.drop 8).take (readBE32 c)))).countP
          (fun c => c.1 = Png.iTXtBytes && decide (pngKeywordOf c.2 = u16 "Title")) = 0 := by
        by_cases hd : jsTruthy md.description = true
        · rw [if_pos hd]
          have hwfD : PngChunkWF (Png.createITXtChunk (u16 "Description")
              (getStr md.description)) :=
            hM _ (by
              unfold Png.pngMetaChunks
              rw [if_pos hti, if_pos hd]
              exact List.mem_append_left _ (List.mem_append_left _
                (List.mem_append_right _ (List.mem_cons_self _ _))))
          simp only [List.map_cons, List.map_nil, List.countP_cons, List.countP_nil]
          rw [itxt_countPred _ _ _ hwfD (by decide)]
          decide
        · rw [if_neg hd]
          rfl
      have h3 : ((if jsTruthy md.keywords then
            [Png.createITXtChunk (u16 "Comment") (getStr md.keywords)] else []).map
            (fun c => ((c.drop 4).take 4, (c.drop 8).take (readBE32 c)))).countP
          (fun c => c.1 = Png.iTXtBytes && decide (pngKeywordOf c.2 = u16 "Title")) = 0 := by
        by_cases hk : jsTruthy md.keywords = true
        · rw [if_pos hk]
          have hwfK : PngChunkWF (Png.createITXtChunk (u16 "Comment")
              (getStr md.keywords)) :=
            hM _ (by
              unfold Png.pngMetaChunks
              rw [if_pos hti, if_pos hk]
              exact List.mem_append_left _ (List.mem_append_right _
                (List.mem_cons_self _ _)))
          simp only [List.map_cons, List.map_nil, List.countP_cons, List.countP_nil]
          rw [itxt_countPred _ _ _ hwfK (by decide)]
          decide
        · rw [if_neg hk]
          rfl
      have h4 : (([Png.createITXtChunk (u16 "XML:com.adobe.xmp")
            (Png.buildXmpPacket md)]).map
            (fun c => ((c.drop 4).take 4, (c.drop 8).take (readBE32 c)))).countP
          (fun c => c.1 = Png.iTXtBytes && decide (pngKeywordOf c.2 = u16 "Title")) = 0 := by
        simp only [List.map_cons, List.map_nil, List.countP_cons, List.countP_nil]
        rw [itxt_countPred _ _ _ hwfX (by decide)]
        decide
      rw [h1, h2, h3, h4]
    rw [hM1, hkeep0]
    simp only [hpihdr]
    rfl


/-- C3 amended: double-embedding the same metadata is a fixed point and
yields exactly one instance of each targeted element — PNG: exactly one
`iTXt "Title"` chunk; JPEG: exactly one EXIF APP1 and one APP13 — for
inputs whose leading structure the rescans fully traverse: a PNG with a
well-formed IHDR, a well-formed chunk run and a stopping remainder, and
a JPEG whose post-SOI run of skippable APP segments ends at a hard stop
(a marker the splice scan does not step over, which excludes the
counterexample's APP2 shield).  Built segments are assumed well-formed
(no length-field overflow). -/
theorem double_embed_idempotent
    (md : EmbedMetadataInput) (ihdr : List Nat) (cs : List (List Nat)) (rem : List Nat)
    (segs : List (List Nat)) (rest iptc exif xmp : List Nat)
    (hti : jsTruthy md.title = true)
    (hihdr : PngChunkWF ihdr) (hihdrT : (ihdr.drop 4).take 4 ≠ Png.iTXtBytes)
    (hcs : ∀ c ∈ cs, PngChunkWF c) (hrem : PngStripStops rem)
    (hM : ∀ c ∈ Png.pngMetaChunks md, PngChunkWF c)
    (hsegs : ∀ s ∈ segs, JpegSkipSeg s) (hrest : JpegHardStop rest)
    (hex : ExifApp1WF exif) (hxm : XmpApp1OK xmp)
    (hiptc : (Jpeg.photoshopHeader ++ iptc).length + 2 < 65536) :
    (Png.embedPngMetadata (Png.pngSig ++ ihdr ++ (cs).flatten ++ rem) md =
      some (Png.pngSig ++ ihdr ++ (Png.pngMetaChunks md).flatten ++
        ((cs).filter (fun c : List Nat => !decide ((c.drop 4).take 4 = Png.tEXtBytes ∨
          (c.drop 4).take 4 = Png.iTXtBytes ∨
          (c.drop 4).take 4 = Png.zTXtBytes))).flatten) ∧
    Png.embedPngMetadata (Png.pngSig ++ ihdr ++ (Png.pngMetaChunks md).flatten ++
        ((cs).filter (fun c : List Nat => !decide ((c.drop 4).take 4 = Png.tEXtBytes ∨
          (c.drop 4).take 4 = Png.iTXtBytes ∨
          (c.drop 4).take 4 = Png.zTXtBytes))).flatten) md =
      some (Png.pngSig ++ ihdr ++ (Png.pngMetaChunks md).flatten ++
        ((cs).filter (fun c : List Nat => !decide ((c.drop 4).take 4 = Png.tEXtBytes ∨
          (c.drop 4).take 4 = Png.iTXtBytes ∨
          (c.drop 4).take 4 = Png.zTXtBytes))).flatten) ∧
    countITXtKeyword (u16 "Title") ((Png.pngSig ++ ihdr ++ (Png.pngMetaChunks md).flatten ++
        ((cs).filter (fun c : List Nat => !decide ((c.drop 4).take 4 = Png.tEXtBytes ∨
          (c.drop 4).take 4 = Png.iTXtBytes ∨
          (c.drop 4).take 4 = Png.zTXtBytes))).flatten).drop 8) = 1) ∧
    (Jpeg.embedMetadataInJPEG ([0xFF, 0xD8] ++ (segs).flatten ++ rest) iptc exif xmp =
      [0xFF, 0xD8] ++ exif ++ xmp ++ Jpeg.app13SegmentOf iptc ++ rest ∧
    Jpeg.embedMetadataInJPEG
        ([0xFF, 0xD8] ++ exif ++ xmp ++ Jpeg.app13SegmentOf iptc ++ rest) iptc exif xmp =
      [0xFF, 0xD8] ++ exif ++ xmp ++ Jpeg.app13SegmentOf iptc ++ rest ∧
    countExifApp1 ([0xFF, 0xD8] ++ exif ++ xmp ++ Jpeg.app13SegmentOf iptc ++ rest) = 1 ∧
    countApp13 ([0xFF, 0xD8] ++ exif ++ xmp ++ Jpeg.app13SegmentOf iptc ++ rest) = 1) :=
  ⟨png_double_embed md ihdr cs rem hti hihdr hihdrT hcs hrem hM,
    jpeg_double_embed segs rest iptc exif xmp hsegs hrest hex hxm hiptc⟩

set_option maxRecDepth 40000 in
set_option maxHeartbeats 2000000 in
theorem double_embed_idempotent_witness :
    (jsTruthy (({ title := some (u16 "T") } : EmbedMetadataInput)).title = true) ∧
    PngChunkWF [0, 0, 0, 1, 73, 72, 68, 82, 5, 9, 9, 9, 9] ∧
    (∀ c ∈ Png.pngMetaChunks ({ title := some (u16 "T") } : EmbedMetadataInput), PngChunkWF c) ∧
    ExifApp1WF [0xFF, 0xE1, 0, 8, 69, 120, 105, 102, 0, 0] ∧
    ((Png.embedPngMetadata (Png.pngSig ++ [0, 0, 0, 1, 73, 72, 68, 82, 5, 9, 9, 9, 9] ++ (([[0, 0, 0, 1, 73, 68, 65, 84, 7, 9, 9, 9, 9]] : List (List Nat))).flatten ++ [0, 0, 0, 100, 73, 68, 65, 84, 1, 2, 3]) ({ title := some (u16 "T") } : EmbedMetadataInput) =
      some (Png.pngSig ++ [0, 0, 0, 1, 73, 72, 68, 82, 5, 9, 9, 9, 9] ++ (Png.pngMetaChunks ({ title := some (u16 "T") } : EmbedMetadataInput)).flatten ++
        ((([[0, 0, 0, 1, 73, 68, 65, 84, 7, 9, 9, 9, 9]] : List (List Nat))).filter (fun c : List Nat => !decide ((c.drop 4).take 4 = Png.tEXtBytes ∨
          (c.drop 4).take 4 = Png.iTXtBytes ∨
          (c.drop 4).take 4 = Png.zTXtBytes))).flatten) ∧
    Png.embedPngMetadata (Png.pngSig ++ [0, 0, 0, 1, 73, 72, 68, 82, 5, 9, 9, 9, 9] ++ (Png.pngMetaChunks ({ title := some (u16 "T") } : EmbedMetadataInput)).flatten ++
        ((([[0, 0, 0, 1, 73, 68, 65, 84, 7, 9, 9, 9, 9]] : List (List Nat))).filter (fun c : List Nat => !decide ((c.drop 4).take 4 = Png.tEXtBytes ∨
          (c.drop 4).take 4 = Png.iTXtBytes ∨
          (c.drop 4).take 4 = Png.zTXtBytes))).flatten) ({ title := some (u16 "T") } : EmbedMetadataInput) =
      some (Png.pngSig ++ [0, 0, 0, 1, 73, 72, 68, 82, 5, 9, 9, 9, 9] ++ (Png.pngMetaChunks ({ title := some (u16 "T") } : EmbedMetadataInput)).flatten ++
        ((([[0, 0, 0, 1, 73, 68, 65, 84, 7, 9, 9, 9, 9]] : List (List Nat))).filter (fun c : List Nat => !decide ((c.drop 4).take 4 = Png.tEXtBytes ∨
          (c.drop 4).take 4 = Png.iTXtBytes ∨
          (c.drop 4).take 4 = Png.zTXtBytes))).flatten) ∧
    countITXtKeyword (u16 "Title") ((Png.pngSig ++ [0, 0, 0, 1, 73, 72, 68, 82, 5, 9, 9, 9, 9] ++ (Png.pngMetaChunks ({ title := some (u16 "T") } : EmbedMetadataInput)).flatten ++
        ((([[0, 0, 0, 1, 73, 68, 65, 84, 7, 9, 9, 9, 9]] : List (List Nat))).filter (fun c : List Nat => !decide ((c.drop 4).take 4 = Png.tEXtBytes ∨
          (c.drop 4).take 4 = Png.iTXtBytes ∨
          (c.drop 4).take 4 = Png.zTXtBytes))).flatten).drop 8) = 1) ∧
    (Jpeg.embedMetadataInJPEG ([0xFF, 0xD8] ++ (([] : List (List Nat))).flatten ++ [0xFF, 0xDA, 0, 2]) ([] : List Nat) [0xFF, 0xE1, 0, 8, 69, 120, 105, 102, 0, 0] ([] : List Nat) =
      [0xFF, 0xD8] ++ [0xFF, 0xE1, 0, 8, 69, 120, 105, 102, 0, 0] ++ ([] : List Nat) ++ Jpeg.app13SegmentOf ([] : List Nat) ++ [0xFF, 0xDA, 0, 2] ∧
    Jpeg.embedMetadataInJPEG
        ([0xFF, 0xD8] ++ [0xFF, 0xE1, 0, 8, 69, 120, 105, 102, 0, 0] ++ ([] : List Nat) ++ Jpeg.app13SegmentOf ([] : List Nat) ++ [0xFF, 0xDA, 0, 2]) ([] : List Nat) [0xFF, 0xE1, 0, 8, 69, 120, 105, 102, 0, 0] ([] : List Nat) =
      [0xFF, 0xD8] ++ [0xFF, 0xE1, 0, 8, 69, 120, 105, 102, 0, 0] ++ ([] : List Nat) ++ Jpeg.app13SegmentOf ([] : List Nat) ++ [0xFF, 0xDA, 0, 2] ∧
    countExifApp1 ([0xFF, 0xD8] ++ [0xFF, 0xE1, 0, 8, 69, 120, 105, 102, 0, 0] ++ ([] : List Nat) ++ Jpeg.app13SegmentOf ([] : List Nat) ++ [0xFF, 0xDA, 0, 2]) = 1 ∧
    countApp13 ([0xFF, 0xD8] ++ [0xFF, 0xE1, 0, 8, 69, 120, 105, 102, 0, 0] ++ ([] : List Nat) ++ Jpeg.app13SegmentOf ([] : List Nat) ++ [0xFF, 0xDA, 0, 2]) = 1)) :=
  ⟨by decide, by decide, by decide, by decide,
    double_embed_idempotent ({ title := some (u16 "T") } : EmbedMetadataInput) [0, 0, 0, 1, 73, 72, 68, 82, 5, 9, 9, 9, 9] ([[0, 0, 0, 1, 73, 68, 65, 84, 7, 9, 9, 9, 9]] : List (List Nat)) [0, 0, 0, 100, 73, 68, 65, 84, 1, 2, 3] ([] : List (List Nat)) [0xFF, 0xDA, 0, 2] ([] : List Nat) [0xFF, 0xE1, 0, 8, 69, 120, 105, 102, 0, 0] ([] : List Nat)
      (by decide) (by decide) (by decide) (by decide) (by decide) (by decide)
      (by decide) (by decide) (by decide) (by decide) (by decide)⟩

set_option maxRecDepth 10000 in
/-- C3 counterexample: a JPEG whose leading APP2 segment shields an old
EXIF APP1 from the splice scan.  Embedding the same new EXIF APP1
segment twice (the first output fed to the second embed) leaves a file
with **two** EXIF APP1 segments among its leading marker segments,
refuting the exactly-one claim. -/
theorem jpeg_double_embed_counterexample :
    countExifApp1
      (Jpeg.embedMetadataInJPEG
        (Jpeg.embedMetadataInJPEG
          [0xFF, 0xD8, 0xFF, 0xE2, 0, 2, 0xFF, 0xE1, 0, 8, 69, 120, 105, 102, 0, 0,
            0xFF, 0xDA, 0, 2]
          [] [0xFF, 0xE1, 0, 8, 69, 120, 105, 102, 0, 0] [])
        [] [0xFF, 0xE1, 0, 8, 69, 120, 105, 102, 0, 0] []) = 2 := by
  decide
